import Mathlib

/-!
Shallow embedding of the ladder trading engine (`strategy_engine.py`,
`config.py`) of this repository, together with proofs about its
per-instrument order state machine.

Modelling conventions:
* Python `float` fields are embedded as `ℚ` (exact arithmetic; the spec's
  "within floating tolerance" equalities become exact equalities).
* Python `int` fields are embedded as `Int`; `int(x)` on a non-negative
  rational is `Int.floor`.
* The dynamic task dictionaries become an `OrderTask` structure carrying
  every key any of the five kinds uses (absent keys default like
  `task.get(k) or d` does).
* Broker interaction is an oracle: `_place_market_order`'s outcome is a
  `BrokerResult` parameter, and each function additionally returns the
  list of order requests it issued, so "no broker call" is expressible.
* The concurrency model is the standard sequential-interleaving
  abstraction: each producer call (tick, start, close, flip, add-on), each
  worker execution of one dequeued task, and each engine stop/start is one
  atomic step; the per-instrument lock of the source serialises exactly
  these sections.  The queue modelled here is the projection of the global
  bounded queue onto one instrument; tasks of other instruments and the
  worker `STOP` sentinels never touch this instrument's state, and the
  occupancy they contribute to the shared queue is the `other` parameter
  of the enqueue test.
-/

namespace Ladder

/-- Python truthiness fallback on floats: `a or b` (with `0.0` falsy). -/
def pyOrQ (a b : ℚ) : ℚ := if a = 0 then b else a

/-- Python truthiness fallback on ints: `a or b` (with `0` falsy). -/
def pyOrZ (a b : Int) : Int := if a = 0 then b else a

/-- Python truthiness fallback on strings: `a or b` (with `""` falsy). -/
def pyOrS (a b : String) : String := if a = "" then b else a

/-- Python `str.startswith` on the character sequence (equivalent to the
byte-level test for the engine's ASCII status constants). -/
def py_startswith (s pre : String) : Bool := pre.data.isPrefixOf s.data

/-- `config.StockStatus`: per-instrument state owned by the engine. -/
structure StockStatus where
  symbol : String
  mode : String := "NONE"
  ltp : ℚ := 0
  change_pct : ℚ := 0
  pnl : ℚ := 0
  status : String := "IDLE"
  entry_price : ℚ := 0
  quantity : Int := 0
  ladder_level : Int := 0
  next_add_on : ℚ := 0
  stop_loss : ℚ := 0
  target : ℚ := 0
  prev_close : ℚ := 0
  day_open : ℚ := 0
  open_gap_pct : ℚ := 0
  last_volume : ℚ := 0
  turnover : ℚ := 0
  high_watermark : ℚ := 0
  order_ids : List String := []
  avg_entry_price : ℚ := 0
  pending_order : String := ""
  last_order_error : String := ""
  cycle_index : Int := 0
  cycle_total : Int := 1
  cycle_start_mode : String := ""
  deriving DecidableEq

/-- `config.StrategySettings` (the fields the engine core reads). -/
structure StrategySettings where
  no_of_add_ons : Int := 5
  add_on_percentage : ℚ := 1/2
  initial_stop_loss_pct : ℚ := 2
  trailing_stop_loss_pct : ℚ := 2
  target_percentage : ℚ := 5
  max_ladder_stocks : Int := 10
  top_n_gainers : Int := 5
  top_n_losers : Int := 5
  min_turnover_crores : ℚ := 1
  max_open_gap_pct_long : ℚ := 5
  min_open_gap_pct_short : ℚ := -5
  cycles_per_stock : Int := 3
  trade_capital : ℚ := 1000
  profit_target_per_stock : ℚ := 5000
  loss_limit_per_stock : ℚ := 2000
  global_profit_exit : ℚ := 4000
  global_loss_exit : ℚ := 2000
  max_concurrent_orders : Int := 10
  deriving DecidableEq

/-- `LadderEngine._update_multipliers`: `add_on_mult`. -/
def add_on_mult (s : StrategySettings) : ℚ := s.add_on_percentage / 100

/-- `LadderEngine._update_multipliers`: `init_sl_mult`. -/
def init_sl_mult (s : StrategySettings) : ℚ := s.initial_stop_loss_pct / 100

/-- `LadderEngine._update_multipliers`: `tsl_mult`. -/
def tsl_mult (s : StrategySettings) : ℚ := s.trailing_stop_loss_pct / 100

/-- `LadderEngine._update_multipliers`: `target_mult`. -/
def target_mult (s : StrategySettings) : ℚ := s.target_percentage / 100

/-- One order-task dictionary.  Keys a kind does not use keep their
falsy defaults, matching `task.get(key)` on an absent key. -/
structure OrderTask where
  kind : String
  symbol : String := ""
  pending : String := ""
  gen : Int := 0
  qty : Int := 0
  price : ℚ := 0
  mode : String := ""
  reason : String := ""
  transaction_type : String := ""
  final_status : String := ""
  close_transaction_type : String := ""
  close_qty : Int := 0
  reverse_transaction_type : String := ""
  reverse_qty : Int := 0
  flip_to : String := ""
  open_qty : Int := 0
  close_price : ℚ := 0
  open_price : ℚ := 0
  cycle_index_next : Option Int := none
  deriving DecidableEq

/-- What `_place_market_order` reported back to `_execute_order_task`:
either a failure response, or success with the (possibly inferred)
executed price and quantity and an optional broker order id. -/
inductive BrokerResult where
  | failure (msg : String)
  | success (order_id : Option String) (exec_price : ℚ) (exec_qty : Int)
  deriving DecidableEq

/-- A market-order request as handed to `_place_market_order`. -/
structure OrderReq where
  symbol : String
  transaction_type : String
  qty : Int
  price : ℚ
  deriving DecidableEq

/-- Appending the broker order id, `if order_id: stock.order_ids.append(..)`. -/
def appendOrderId (ids : List String) (oid : Option String) : List String :=
  match oid with
  | some s => if s = "" then ids else ids ++ [s]
  | none => ids

/-- Stale-generation revert of `_execute_order_task` (lines 514-528): if the
instrument's pending token still matches the task's token, park the
instrument in a safe resting state and clear the token. -/
def stale_revert (task : OrderTask) (stock : StockStatus) : StockStatus :=
  if task.pending ≠ "" ∧ stock.pending_order = task.pending then
    { stock with
      last_order_error := "Cancelled (engine stopped/restarted)"
      status :=
        if task.kind = "START_LONG" ∨ task.kind = "START_SHORT" then "IDLE"
        else if task.kind = "CLOSE" ∨ task.kind = "CLOSE_AND_FLIP" then "ACTIVE"
        else stock.status
      pending_order := "" }
  else stock

/-- `START_LONG` branch of `_execute_order_task` (after the market order
came back), operating on the freshly re-read stock. -/
def exec_start_long (s : StrategySettings) (task : OrderTask) (br : BrokerResult)
    (stock : StockStatus) : StockStatus :=
  match br with
  | .failure msg =>
      { stock with last_order_error := msg, status := "IDLE", pending_order := "" }
  | .success oid exec_price exec_qty =>
      let fill_price := pyOrQ exec_price task.price
      let fill_qty := pyOrZ exec_qty task.qty
      { stock with
        order_ids := appendOrderId stock.order_ids oid
        mode := "LONG"
        status := "ACTIVE"
        ladder_level := 1
        entry_price := fill_price
        avg_entry_price := fill_price
        quantity := fill_qty
        high_watermark := fill_price
        stop_loss := fill_price * (1 - init_sl_mult s)
        target := fill_price * (1 + target_mult s)
        next_add_on := fill_price * (1 + add_on_mult s)
        pending_order := "" }

/-- `START_SHORT` branch of `_execute_order_task`. -/
def exec_start_short (s : StrategySettings) (task : OrderTask) (br : BrokerResult)
    (stock : StockStatus) : StockStatus :=
  match br with
  | .failure msg =>
      { stock with last_order_error := msg, status := "IDLE", pending_order := "" }
  | .success oid exec_price exec_qty =>
      let fill_price := pyOrQ exec_price task.price
      let fill_qty := pyOrZ exec_qty task.qty
      { stock with
        order_ids := appendOrderId stock.order_ids oid
        mode := "SHORT"
        status := "ACTIVE"
        ladder_level := 1
        entry_price := fill_price
        avg_entry_price := fill_price
        quantity := fill_qty
        high_watermark := fill_price
        stop_loss := fill_price * (1 + init_sl_mult s)
        target := fill_price * (1 - target_mult s)
        next_add_on := fill_price * (1 - add_on_mult s)
        pending_order := "" }

/-- `ADD_ON` branch of `_execute_order_task`: grow the position, recompute
the running weighted average entry, tighten (never loosen) the stop. -/
def exec_add_on (s : StrategySettings) (task : OrderTask) (br : BrokerResult)
    (stock : StockStatus) : StockStatus :=
  match br with
  | .failure msg =>
      { stock with last_order_error := msg, pending_order := "" }
  | .success oid exec_price exec_qty =>
      let fill_price := pyOrQ exec_price task.price
      let fill_qty := pyOrZ exec_qty task.qty
      let prev_qty := stock.quantity
      let new_qty := prev_qty + fill_qty
      let new_level := stock.ladder_level + (if fill_qty > 0 then 1 else 0)
      let new_avg :=
        if prev_qty > 0 ∧ stock.avg_entry_price > 0 then
          (stock.avg_entry_price * prev_qty + fill_price * fill_qty) / new_qty
        else fill_price
      if task.mode = "LONG" then
        { stock with
          order_ids := appendOrderId stock.order_ids oid
          quantity := new_qty
          ladder_level := new_level
          avg_entry_price := new_avg
          next_add_on := fill_price * (1 + add_on_mult s)
          stop_loss :=
            if new_avg * (1 - init_sl_mult s) > stock.stop_loss then
              new_avg * (1 - init_sl_mult s)
            else stock.stop_loss
          target := new_avg * (1 + target_mult s)
          pending_order := "" }
      else
        { stock with
          order_ids := appendOrderId stock.order_ids oid
          quantity := new_qty
          ladder_level := new_level
          avg_entry_price := new_avg
          next_add_on := fill_price * (1 - add_on_mult s)
          stop_loss :=
            if stock.stop_loss = 0 ∨ new_avg * (1 + init_sl_mult s) < stock.stop_loss then
              new_avg * (1 + init_sl_mult s)
            else stock.stop_loss
          target := new_avg * (1 - target_mult s)
          pending_order := "" }

/-- `CLOSE` branch of `_execute_order_task`. -/
def exec_close (task : OrderTask) (br : BrokerResult) (stock : StockStatus) :
    StockStatus :=
  match br with
  | .failure msg =>
      { stock with last_order_error := msg, status := "ACTIVE", pending_order := "" }
  | .success oid _ _ =>
      { stock with
        order_ids := appendOrderId stock.order_ids oid
        quantity := 0
        mode := "NONE"
        status := pyOrS task.final_status "CLOSED"
        pending_order := "" }

/-- `CLOSE_AND_FLIP` branch of `_execute_order_task`: one reverse order
covers the close plus the next ladder's opening quantity; the fill beyond
the close quantity becomes the new ladder, a non-positive remainder parks
the instrument IDLE with an error. -/
def exec_close_and_flip (s : StrategySettings) (task : OrderTask)
    (br : BrokerResult) (stock : StockStatus) : StockStatus :=
  let close_qty := task.close_qty
  let reverse_qty0 := if task.reverse_qty ≤ 0 then
      close_qty + max 0 task.open_qty
    else task.reverse_qty
  let price := pyOrQ task.price (pyOrQ task.close_price task.open_price)
  match br with
  | .failure msg =>
      { stock with last_order_error := msg, status := "ACTIVE", pending_order := "" }
  | .success oid exec_price exec_qty =>
      let fill_price := pyOrQ exec_price price
      let filled_total := pyOrZ exec_qty reverse_qty0
      let filled_open_qty := max 0 (filled_total - max 0 close_qty)
      if filled_open_qty ≤ 0 then
        { stock with
          order_ids := appendOrderId stock.order_ids oid
          last_order_error := "Flip executed without opening new ladder quantity"
          quantity := 0
          mode := "NONE"
          status := "IDLE"
          pending_order := "" }
      else
        let base : StockStatus :=
          if task.flip_to = "SHORT" then
            { stock with
              mode := "SHORT"
              stop_loss := fill_price * (1 + init_sl_mult s)
              target := fill_price * (1 - target_mult s)
              next_add_on := fill_price * (1 - add_on_mult s) }
          else
            { stock with
              mode := "LONG"
              stop_loss := fill_price * (1 - init_sl_mult s)
              target := fill_price * (1 + target_mult s)
              next_add_on := fill_price * (1 + add_on_mult s) }
        { base with
          order_ids := appendOrderId stock.order_ids oid
          status := "ACTIVE"
          ladder_level := 1
          entry_price := fill_price
          avg_entry_price := fill_price
          quantity := filled_open_qty
          high_watermark := fill_price
          cycle_index :=
            match task.cycle_index_next with
            | some i => i
            | none => stock.cycle_index
          pending_order := "" }

/-- The order request a kind branch passes to `_place_market_order`. -/
def taskOrderReq (task : OrderTask) : OrderReq :=
  if task.kind = "START_LONG" then
    ⟨task.symbol, "BUY", task.qty, task.price⟩
  else if task.kind = "START_SHORT" then
    ⟨task.symbol, "SELL", task.qty, task.price⟩
  else if task.kind = "ADD_ON" then
    ⟨task.symbol, if task.mode = "LONG" then "BUY" else "SELL", task.qty, task.price⟩
  else if task.kind = "CLOSE" then
    ⟨task.symbol, task.transaction_type, task.qty, task.price⟩
  else
    let reverse_qty := if task.reverse_qty ≤ 0 then
        task.close_qty + max 0 task.open_qty
      else task.reverse_qty
    ⟨task.symbol, pyOrS task.reverse_transaction_type task.close_transaction_type,
      reverse_qty, pyOrQ task.price (pyOrQ task.close_price task.open_price)⟩

/-- `LadderEngine._execute_order_task`: generation check, stale revert,
pending-token validation, kind dispatch.  Returns the updated stock and
the market-order requests issued (empty whenever the task was discarded
before reaching `_place_market_order`). -/
def execute_order_task (s : StrategySettings) (gen_current : Int)
    (task : OrderTask) (br : BrokerResult) (stock : StockStatus) :
    StockStatus × List OrderReq :=
  if task.gen ≠ gen_current then
    (stale_revert task stock, [])
  else if task.pending ≠ "" ∧ stock.pending_order ≠ task.pending then
    (stock, [])
  else if task.kind = "START_LONG" then
    if stock.pending_order ≠ task.pending then (stock, [taskOrderReq task])
    else (exec_start_long s task br stock, [taskOrderReq task])
  else if task.kind = "START_SHORT" then
    if stock.pending_order ≠ task.pending then (stock, [taskOrderReq task])
    else (exec_start_short s task br stock, [taskOrderReq task])
  else if task.kind = "ADD_ON" then
    if stock.pending_order ≠ task.pending then (stock, [taskOrderReq task])
    else (exec_add_on s task br stock, [taskOrderReq task])
  else if task.kind = "CLOSE" then
    if stock.pending_order ≠ task.pending then (stock, [taskOrderReq task])
    else (exec_close task br stock, [taskOrderReq task])
  else if task.kind = "CLOSE_AND_FLIP" then
    if stock.pending_order ≠ task.pending then (stock, [taskOrderReq task])
    else (exec_close_and_flip s task br stock, [taskOrderReq task])
  else
    (stock, [])

/-! ### Producers (tick-side) -/

/-- The bounded order queue's capacity (`queue.Queue(maxsize=2000)`). -/
def ORDER_QUEUE_MAXSIZE : Nat := 2000

/-- Per-instrument view: this instrument's state plus the projection of
the global order queue onto its tasks (in FIFO order). -/
structure EngView where
  stock : StockStatus
  queue : List OrderTask
  deriving DecidableEq

/-- Whether `queue.put_nowait` succeeds: `other` is the occupancy that
tasks of other instruments and worker sentinels contribute to the shared
bounded queue at this instant. -/
def enqueue_ok (other : Nat) (q : List OrderTask) : Bool :=
  q.length + other < ORDER_QUEUE_MAXSIZE

/-- `LadderEngine._enqueue_order`: stamp the engine's current generation
on the task and `put_nowait` it; a full queue drops the task and reports
`false` to the caller. -/
def enqueue_order (gen : Int) (other : Nat) (q : List OrderTask)
    (task : OrderTask) : Bool × List OrderTask :=
  if enqueue_ok other q then (true, q ++ [{ task with gen := gen }])
  else (false, q)

/-- `LadderEngine._mark_pending`. -/
def mark_pending (stock : StockStatus) (pending : String) : StockStatus :=
  { stock with pending_order := pending, last_order_error := "" }

/-- `max(1, int(trade_capital / price)) if price > 0 else 1` (the sizing
formula of `start_long_ladder`, `start_short_ladder`, `execute_add_on`
and `_close_and_flip`). -/
def qty_from_capital (cap px : ℚ) : Int :=
  if px > 0 then max 1 ⌊cap / px⌋ else 1

/-- `LadderEngine.execute_add_on`: mark pending, build the ADD_ON task,
enqueue; on a full queue roll the pending token back. -/
def execute_add_on (s : StrategySettings) (gen : Int) (other : Nat)
    (mode : String) (v : EngView) : EngView :=
  if v.stock.pending_order ≠ "" then v
  else
    let qty := qty_from_capital s.trade_capital v.stock.entry_price
    let pending := "ADD_ON_" ++ mode
    let stock1 := mark_pending v.stock pending
    let task : OrderTask :=
      { kind := "ADD_ON", symbol := v.stock.symbol, pending := pending,
        mode := mode, qty := qty, price := v.stock.ltp }
    let enq := enqueue_order gen other v.queue task
    if enq.1 then ⟨stock1, enq.2⟩
    else
      let rolled := { stock1 with last_order_error := "Order queue full", pending_order := "" }
      ⟨rolled, enq.2⟩

/-- `LadderEngine.close_position`: guard, mark `PENDING_CLOSE`, enqueue the
CLOSE task; on a full queue restore `ACTIVE` and clear the token. -/
def close_position (gen : Int) (other : Nat) (reason final_status : String)
    (v : EngView) : EngView :=
  if v.stock.pending_order ≠ "" then v
  else if v.stock.quantity ≤ 0 ∨ v.stock.mode = "NONE" then v
  else
    let transaction_type := if v.stock.mode = "LONG" then "SELL" else "BUY"
    let stock1 := { mark_pending v.stock "CLOSE" with status := "PENDING_CLOSE" }
    let task : OrderTask :=
      { kind := "CLOSE", symbol := v.stock.symbol, pending := "CLOSE",
        reason := reason, transaction_type := transaction_type,
        qty := v.stock.quantity, price := v.stock.ltp,
        final_status := final_status }
    let enq := enqueue_order gen other v.queue task
    if enq.1 then ⟨stock1, enq.2⟩
    else
      let rolled := { stock1 with last_order_error := "Order queue full", status := "ACTIVE", pending_order := "" }
      ⟨rolled, enq.2⟩

/-- `LadderEngine._close_and_flip`: guard, mark `PENDING_FLIP`, enqueue one
reverse-direction CLOSE_AND_FLIP task sized `close_qty + open_qty`; on a
full queue restore `ACTIVE` and clear the token. -/
def close_and_flip (s : StrategySettings) (gen : Int) (other : Nat)
    (flip_to reason : String) (cycle_index_next : Option Int) (v : EngView) :
    EngView :=
  if v.stock.pending_order ≠ "" then v
  else if v.stock.quantity ≤ 0 ∨ v.stock.mode = "NONE" then v
  else if flip_to ≠ "LONG" ∧ flip_to ≠ "SHORT" then v
  else
    let close_tx := if v.stock.mode = "LONG" then "SELL" else "BUY"
    let close_qty := v.stock.quantity
    let open_qty := qty_from_capital s.trade_capital v.stock.ltp
    let pending := "CLOSE_AND_FLIP_" ++ flip_to
    let stock1 := { mark_pending v.stock pending with status := "PENDING_FLIP" }
    let task : OrderTask :=
      { kind := "CLOSE_AND_FLIP", symbol := v.stock.symbol, pending := pending,
        reason := reason, close_transaction_type := close_tx,
        close_qty := close_qty, flip_to := flip_to, open_qty := open_qty,
        reverse_transaction_type := close_tx,
        reverse_qty := close_qty + open_qty, price := v.stock.ltp,
        cycle_index_next := cycle_index_next }
    let enq := enqueue_order gen other v.queue task
    if enq.1 then ⟨stock1, enq.2⟩
    else
      let rolled := { stock1 with last_order_error := "Order queue full", status := "ACTIVE", pending_order := "" }
      ⟨rolled, enq.2⟩

/-- `LadderEngine._finish_ladder_cycle`: close terminally when the cycle
budget is one or exhausted, otherwise flip and advance the cycle index. -/
def finish_ladder_cycle (s : StrategySettings) (gen : Int) (other : Nat)
    (reason : String) (v : EngView) : EngView :=
  let cycle_total := pyOrZ v.stock.cycle_total 1
  let cycle_index := v.stock.cycle_index
  if cycle_total ≤ 1 then
    close_position gen other reason "CLOSED" v
  else if cycle_index + 1 ≥ cycle_total then
    close_position gen other (reason ++ " (cycles completed)") "CLOSED_CYCLES" v
  else
    let flip_to := if v.stock.mode = "LONG" then "SHORT" else "LONG"
    let next_index := cycle_index + 1
    close_and_flip s gen other flip_to
      (reason ++ " (cycle " ++ toString (next_index + 1) ++ "/" ++
        toString cycle_total ++ ")")
      (some next_index) v

/-- `LadderEngine._process_long_position`: target, stop, add-on trigger,
then trailing-stop tightening from the high watermark. -/
def process_long_position (s : StrategySettings) (gen : Int) (other : Nat)
    (v : EngView) : EngView :=
  if v.stock.ltp ≥ v.stock.target then
    finish_ladder_cycle s gen other "Target Hit" v
  else if v.stock.ltp ≤ v.stock.stop_loss then
    finish_ladder_cycle s gen other "SL Hit" v
  else
    let v1 :=
      if v.stock.ladder_level < s.no_of_add_ons ∧ v.stock.ltp ≥ v.stock.next_add_on
      then execute_add_on s gen other "LONG" v
      else v
    let st := v1.stock
    let st2 :=
      if st.high_watermark > 0 ∧ st.high_watermark * (1 - tsl_mult s) > st.stop_loss
      then { st with stop_loss := st.high_watermark * (1 - tsl_mult s) }
      else st
    ⟨st2, v1.queue⟩

/-- `LadderEngine._process_short_position`. -/
def process_short_position (s : StrategySettings) (gen : Int) (other : Nat)
    (v : EngView) : EngView :=
  if v.stock.ltp ≤ v.stock.target then
    finish_ladder_cycle s gen other "Target Hit" v
  else if v.stock.ltp ≥ v.stock.stop_loss then
    finish_ladder_cycle s gen other "SL Hit" v
  else
    let v1 :=
      if v.stock.ladder_level < s.no_of_add_ons ∧ v.stock.ltp ≤ v.stock.next_add_on
      then execute_add_on s gen other "SHORT" v
      else v
    let st := v1.stock
    let st2 :=
      if st.high_watermark > 0 ∧
          (st.high_watermark * (1 + tsl_mult s) < st.stop_loss ∨ st.stop_loss = 0)
      then { st with stop_loss := st.high_watermark * (1 + tsl_mult s) }
      else st
    ⟨st2, v1.queue⟩

/-- `process_tick` update of last price and volume. -/
def tick_update_price (ltp volume : ℚ) (stock : StockStatus) : StockStatus :=
  { stock with ltp := ltp, last_volume := volume }

/-- `process_tick` turnover update (`if volume > 0`). -/
def tick_update_turnover (ltp volume : ℚ) (stock : StockStatus) : StockStatus :=
  if volume > 0 then { stock with turnover := volume * ltp } else stock

/-- `process_tick` first-tick day-open/gap capture. -/
def tick_update_day_open (ltp : ℚ) (stock : StockStatus) : StockStatus :=
  if stock.day_open ≤ 0 ∧ ltp > 0 ∧ stock.prev_close > 0 then
    { stock with
      day_open := ltp
      open_gap_pct := (ltp - stock.prev_close) / stock.prev_close * 100 }
  else stock

/-- `process_tick` percent-change-from-previous-close update. -/
def tick_update_change_pct (ltp : ℚ) (stock : StockStatus) : StockStatus :=
  if stock.prev_close > 0 then
    { stock with change_pct := (ltp - stock.prev_close) / stock.prev_close * 100 }
  else stock

/-- `process_tick` high-watermark update (max for LONG, min for SHORT). -/
def tick_update_watermark (ltp : ℚ) (stock : StockStatus) : StockStatus :=
  if stock.mode ≠ "NONE" then
    if stock.mode = "LONG" ∧ ltp > stock.high_watermark then
      { stock with high_watermark := ltp }
    else if stock.mode = "SHORT" ∧
        (stock.high_watermark = 0 ∨ ltp < stock.high_watermark) then
      { stock with high_watermark := ltp }
    else stock
  else stock

/-- `process_tick` unrealised P&L update from the cached average entry. -/
def tick_update_pnl (ltp : ℚ) (stock : StockStatus) : StockStatus :=
  if stock.mode ≠ "NONE" ∧ stock.quantity > 0 ∧ stock.avg_entry_price > 0 then
    if stock.mode = "LONG" then
      { stock with pnl := (ltp - stock.avg_entry_price) * stock.quantity }
    else
      { stock with pnl := (stock.avg_entry_price - ltp) * stock.quantity }
  else stock

/-- The display/bookkeeping refresh of `process_tick` (the steps before the
halt/pending guards): last price, volume, turnover, first-tick day open and
gap, percent change, high watermark, unrealised P&L. -/
def tick_refresh (ltp volume : ℚ) (stock : StockStatus) : StockStatus :=
  tick_update_pnl ltp (tick_update_watermark ltp (tick_update_change_pct ltp
    (tick_update_day_open ltp (tick_update_turnover ltp volume
      (tick_update_price ltp volume stock)))))

/-- Per-stock P&L limit checks at the end of `process_tick`. -/
def tick_pnl_limits (s : StrategySettings) (gen : Int) (other : Nat)
    (v : EngView) : EngView :=
  let profit_target := s.profit_target_per_stock
  let loss_limit := |s.loss_limit_per_stock|
  if profit_target > 0 ∧ v.stock.pnl ≥ profit_target then
    close_position gen other "Stock profit target reached"
      "CLOSED_STOCK_PROFIT_LIMIT" v
  else if loss_limit > 0 ∧ v.stock.pnl ≤ -loss_limit then
    close_position gen other "Stock loss limit reached"
      "CLOSED_STOCK_LOSS_LIMIT" v
  else v

/-- `LadderEngine.process_tick` for this instrument (the throttled
`_maybe_select_top_movers` call at its end operates on other instruments'
idle entries via `start_long_ladder`/`start_short_ladder`, modelled as
separate steps of the transition system). -/
def process_tick (s : StrategySettings) (gen : Int) (other : Nat)
    (running trading_halted : Bool) (ltp volume : ℚ) (v : EngView) : EngView :=
  if ¬running then v
  else if v.stock.status = "STOPPED" ∨ py_startswith v.stock.status "CLOSED" then v
  else
    let stock := tick_refresh ltp volume v.stock
    if trading_halted then ⟨stock, v.queue⟩
    else if stock.pending_order ≠ "" then ⟨stock, v.queue⟩
    else
      let v1 : EngView := ⟨stock, v.queue⟩
      let v2 :=
        if stock.mode = "LONG" then process_long_position s gen other v1
        else if stock.mode = "SHORT" then process_short_position s gen other v1
        else v1
      tick_pnl_limits s gen other v2

/-- `LadderEngine.start_long_ladder`: session-capacity check (`capOk` is
the `started_symbols`/`_pending_start_symbols` budget test, whose sets are
engine-global and not part of the per-instrument view), IDLE guard, cycle
bookkeeping, mark `PENDING_LONG`, enqueue; full queue rolls back to IDLE. -/
def start_long_ladder (s : StrategySettings) (gen : Int) (other : Nat)
    (capOk : Bool) (v : EngView) : EngView :=
  if ¬capOk then v
  else if v.stock.pending_order ≠ "" ∨ v.stock.status ≠ "IDLE" then v
  else
    let stock0 :=
      if pyOrZ v.stock.cycle_total 1 ≤ 1 then
        { v.stock with
          cycle_total := max 1 (pyOrZ s.cycles_per_stock 3)
          cycle_index := 0
          cycle_start_mode := "LONG" }
      else v.stock
    let qty := qty_from_capital s.trade_capital stock0.ltp
    let stock1 := { mark_pending stock0 "START_LONG" with status := "PENDING_LONG" }
    let task : OrderTask :=
      { kind := "START_LONG", symbol := stock0.symbol, pending := "START_LONG",
        qty := qty, price := stock0.ltp }
    let enq := enqueue_order gen other v.queue task
    if enq.1 then ⟨stock1, enq.2⟩
    else
      let rolled := { stock1 with last_order_error := "Order queue full", status := "IDLE", pending_order := "" }
      ⟨rolled, enq.2⟩

/-- `LadderEngine.start_short_ladder`. -/
def start_short_ladder (s : StrategySettings) (gen : Int) (other : Nat)
    (capOk : Bool) (v : EngView) : EngView :=
  if ¬capOk then v
  else if v.stock.pending_order ≠ "" ∨ v.stock.status ≠ "IDLE" then v
  else
    let stock0 :=
      if pyOrZ v.stock.cycle_total 1 ≤ 1 then
        { v.stock with
          cycle_total := max 1 (pyOrZ s.cycles_per_stock 3)
          cycle_index := 0
          cycle_start_mode := "SHORT" }
      else v.stock
    let qty := qty_from_capital s.trade_capital stock0.ltp
    let stock1 := { mark_pending stock0 "START_SHORT" with status := "PENDING_SHORT" }
    let task : OrderTask :=
      { kind := "START_SHORT", symbol := stock0.symbol, pending := "START_SHORT",
        qty := qty, price := stock0.ltp }
    let enq := enqueue_order gen other v.queue task
    if enq.1 then ⟨stock1, enq.2⟩
    else
      let rolled := { stock1 with last_order_error := "Order queue full", status := "IDLE", pending_order := "" }
      ⟨rolled, enq.2⟩

/-! ### Engine-level transition system (per instrument) -/

/-- Global engine state projected onto one instrument. -/
structure EngState where
  running : Bool
  gen : Int
  stock : StockStatus
  queue : List OrderTask
  deriving DecidableEq

/-- The fresh `StockStatus` that `start_strategy` installs for each symbol
of the day's candidate map. -/
def fresh_stock (symbol : String) (prev_close : ℚ) : StockStatus :=
  { symbol := symbol
    mode := "NONE"
    ltp := 0
    change_pct := 0
    pnl := 0
    status := "IDLE"
    entry_price := 0
    quantity := 0
    ladder_level := 0
    next_add_on := 0
    stop_loss := 0
    target := 0
    prev_close := prev_close
    high_watermark := 0 }

/-- The per-instrument part of `LadderEngine.stop`: a pending instrument
gets its token cleared and, if parked in a `PENDING_*` status, is reverted
to `ACTIVE`/`IDLE` according to whether it holds a position. -/
def stop_revert (reason : String) (stock : StockStatus) : StockStatus :=
  if stock.pending_order ≠ "" then
    { stock with
      last_order_error := "Cancelled: " ++ reason
      pending_order := ""
      status :=
        if py_startswith stock.status "PENDING" then
          if stock.mode ≠ "NONE" then "ACTIVE" else "IDLE"
        else stock.status }
  else stock

/-- One worker iteration on this instrument's task stream: dequeue the
oldest task and run `_execute_order_task` on it. -/
def exec_next (s : StrategySettings) (br : BrokerResult) (st : EngState) :
    EngState :=
  match st.queue with
  | [] => st
  | task :: rest =>
      { st with
        stock := (execute_order_task s st.gen task br st.stock).1
        queue := rest }

/-- Events of the per-instrument transition system.  `other` is the queue
occupancy contributed by other instruments at that instant; `capOk` is the
outcome of the engine-global `max_ladder_stocks` session budget test;
`halted` is the engine-global `trading_halted` flag. -/
inductive EngEvent where
  | tick (other : Nat) (halted : Bool) (ltp volume : ℚ)
  | selectStartLong (other : Nat) (capOk : Bool)
  | selectStartShort (other : Nat) (capOk : Bool)
  | squareOff (other : Nat) (reason final_status : String)
  | execNext (br : BrokerResult)
  | stopEngine (reason : String)
  | startEngine (inCandidates : Bool) (prev_close : ℚ)

/-- One atomic step of the engine on this instrument.  Producers append to
the queue under the instrument lock; `stopEngine` is `LadderEngine.stop`
(generation bump, queue drain, pending revert); `startEngine` is
`start_strategy` (generation bump and fresh per-candidate state — its call
sites in `main.py` run it only when the engine is not running);
`selectStartLong`/`selectStartShort` are the `select_top_movers` promotions,
reachable only from the tick path of a running engine. -/
def engine_step (s : StrategySettings) (e : EngEvent) (st : EngState) :
    EngState :=
  match e with
  | .tick other halted ltp volume =>
      let v := process_tick s st.gen other st.running halted ltp volume
        ⟨st.stock, st.queue⟩
      { st with
        stock := v.stock
        queue := v.queue }
  | .selectStartLong other capOk =>
      if st.running then
        let v := start_long_ladder s st.gen other capOk ⟨st.stock, st.queue⟩
        { st with
          stock := v.stock
          queue := v.queue }
      else st
  | .selectStartShort other capOk =>
      if st.running then
        let v := start_short_ladder s st.gen other capOk ⟨st.stock, st.queue⟩
        { st with
          stock := v.stock
          queue := v.queue }
      else st
  | .squareOff other reason final_status =>
      let v := close_position st.gen other reason final_status
        ⟨st.stock, st.queue⟩
      { st with
        stock := v.stock
        queue := v.queue }
  | .execNext br => exec_next s br st
  | .stopEngine reason =>
      { running := false
        gen := st.gen + 1
        stock := stop_revert reason st.stock
        queue := [] }
  | .startEngine inCandidates prev_close =>
      if st.running then st
      else
        { running := true
          gen := st.gen + 1
          stock := if inCandidates then
              fresh_stock st.stock.symbol prev_close
            else st.stock
          queue := st.queue }

/-! ### Market-hours guard (`is_market_hours`, `_place_market_order`) -/

/-- A wall-clock time of day in IST, as compared by `datetime.time`. -/
structure TimeIST where
  hour : Int
  minute : Int
  second : Int
  micro : Int
  deriving DecidableEq

/-- Lexicographic `datetime.time` comparison. -/
def timeLE (a b : TimeIST) : Bool :=
  a.hour < b.hour ∨ (a.hour = b.hour ∧ (a.minute < b.minute ∨
    (a.minute = b.minute ∧ (a.second < b.second ∨
      (a.second = b.second ∧ a.micro ≤ b.micro)))))

/-- `LadderEngine.is_market_hours`: `dt_time(9,16) <= now <= dt_time(15,30)`. -/
def is_market_hours (now : TimeIST) : Bool :=
  timeLE ⟨9, 16, 0, 0⟩ now ∧ timeLE now ⟨15, 30, 0, 0⟩

/-- What `_place_market_order` returned (`resp`, `order_id`,
`executed_price`, `executed_qty`) plus whether `dhan_client.place_order`
was actually invoked. -/
structure PlaceResult where
  resp_status : String
  message : String := ""
  order_id : Option String := none
  executed_price : ℚ := 0
  executed_qty : Int := 0
  broker_called : Bool
  deriving DecidableEq

/-- `LadderEngine._place_market_order`: outside market hours the order is
blocked before any broker interaction; otherwise the broker is called and,
on success, the executed price/qty is the polled incremental fill when one
was inferred, else the requested price/qty. -/
def place_market_order (now : TimeIST) (req : OrderReq) (resp_ok : Bool)
    (resp_order_id : Option String) (inferred : Option (ℚ × Int)) :
    PlaceResult :=
  if ¬is_market_hours now then
    { resp_status := "failure"
      message := "Order blocked: outside market hours (IST)"
      order_id := none
      executed_price := 0
      executed_qty := 0
      broker_called := false }
  else if ¬resp_ok then
    { resp_status := "failure"
      order_id := none
      executed_price := 0
      executed_qty := 0
      broker_called := true }
  else
    { resp_status := "success"
      order_id := resp_order_id
      executed_price :=
        match inferred with
        | some pq => pq.1
        | none => pyOrQ req.price 0
      executed_qty :=
        match inferred with
        | some pq => pq.2
        | none => pyOrZ req.qty 0
      broker_called := true }

/-! ### Settings normalization (`_normalize_settings`) -/

/-- `LadderEngine._normalize_settings`: clamp capacities and minimums, and
shrink losers (then, only if gainers alone exceed capacity, gainers) until
`top_n_gainers + top_n_losers` fits in `max_ladder_stocks`. -/
def normalize_settings (settings : StrategySettings) : StrategySettings :=
  let max_ladders := max 1 (pyOrZ settings.max_ladder_stocks 0)
  let top_gainers := max 0 (pyOrZ settings.top_n_gainers 0)
  let top_losers := max 0 (pyOrZ settings.top_n_losers 0)
  let max_concurrent_orders := max 1 (pyOrZ settings.max_concurrent_orders 2)
  let cycles_per_stock := max 1 (pyOrZ settings.cycles_per_stock 3)
  let adjust := max_ladders > 0 ∧ top_gainers + top_losers > max_ladders
  let top_losers1 := if adjust then max 0 (max_ladders - top_gainers) else top_losers
  let top_gainers1 :=
    if adjust ∧ top_losers1 = 0 ∧ top_gainers > max_ladders then max_ladders
    else top_gainers
  { settings with
    max_ladder_stocks := max_ladders
    top_n_gainers := top_gainers1
    top_n_losers := top_losers1
    max_concurrent_orders := max_concurrent_orders
    cycles_per_stock := cycles_per_stock }

/-! ## Theorems -/

/-- C10: an order task of any kind executed at a wall-clock time outside
the IST window 09:16-15:30 (inclusive) is rejected by
`_place_market_order` with a failure result and without invoking the
broker's `place_order`, regardless of the request or intended broker
reply. -/
theorem market_hours_order_guard (now : TimeIST) (req : OrderReq)
    (resp_ok : Bool) (oid : Option String) (inferred : Option (ℚ × Int))
    (h : is_market_hours now = false) :
    (place_market_order now req resp_ok oid inferred).resp_status = "failure" ∧
    (place_market_order now req resp_ok oid inferred).broker_called = false := by
  unfold place_market_order
  simp [h]

/-- Witness for `market_hours_order_guard` at 16:00:00 IST. -/
theorem market_hours_order_guard_witness :
    (place_market_order ⟨16, 0, 0, 0⟩ ⟨"TCS", "BUY", 10, 100⟩ true none
      none).resp_status = "failure" ∧
    (place_market_order ⟨16, 0, 0, 0⟩ ⟨"TCS", "BUY", 10, 100⟩ true none
      none).broker_called = false :=
  market_hours_order_guard ⟨16, 0, 0, 0⟩ ⟨"TCS", "BUY", 10, 100⟩ true none
    none (by decide)

/-- Concrete stale CLOSE task for the C2 witness. -/
def wStaleTask : OrderTask :=
  { kind := "CLOSE", symbol := "X", pending := "CLOSE", gen := 0 }

/-- Concrete pending LONG instrument for the C2 witness. -/
def wStaleStock : StockStatus :=
  { fresh_stock "X" 95 with
    pending_order := "CLOSE"
    mode := "LONG"
    quantity := 10 }

/-- C2 theorem (see main text). -/
theorem generation_cancellation (s : StrategySettings) (g : Int)
    (task : OrderTask) (br : BrokerResult) (stock : StockStatus)
    (hstale : task.gen ≠ g) :
    (execute_order_task s g task br stock).2 = [] ∧
    (execute_order_task s g task br stock).1.mode = stock.mode ∧
    (execute_order_task s g task br stock).1.quantity = stock.quantity ∧
    (execute_order_task s g task br stock).1.entry_price = stock.entry_price ∧
    (execute_order_task s g task br stock).1.avg_entry_price =
      stock.avg_entry_price ∧
    (execute_order_task s g task br stock).1.stop_loss = stock.stop_loss ∧
    (execute_order_task s g task br stock).1.target = stock.target ∧
    (execute_order_task s g task br stock).1.ladder_level =
      stock.ladder_level ∧
    (execute_order_task s g task br stock).1.high_watermark =
      stock.high_watermark ∧
    (task.pending ≠ "" ∧ stock.pending_order = task.pending →
      (execute_order_task s g task br stock).1.pending_order = "" ∧
      ((task.kind = "START_LONG" ∨ task.kind = "START_SHORT") →
        (execute_order_task s g task br stock).1.status = "IDLE") ∧
      ((task.kind = "CLOSE" ∨ task.kind = "CLOSE_AND_FLIP") →
        (execute_order_task s g task br stock).1.status = "ACTIVE")) ∧
    (¬(task.pending ≠ "" ∧ stock.pending_order = task.pending) →
      (execute_order_task s g task br stock).1 = stock) := by
  unfold execute_order_task stale_revert
  rw [if_pos hstale]
  by_cases h : task.pending ≠ "" ∧ stock.pending_order = task.pending
  · rw [if_pos h]
    refine ⟨rfl, rfl, rfl, rfl, rfl, rfl, rfl, rfl, rfl,
      fun _ => ⟨rfl, ?_, ?_⟩, fun hc => absurd h hc⟩
    · intro hk
      simp only [if_pos hk]
    · intro hk
      have hne : ¬(task.kind = "START_LONG" ∨ task.kind = "START_SHORT") := by
        rcases hk with hk | hk <;> simp [hk]
      simp only [if_neg hne, if_pos hk]
  · rw [if_neg h]
    exact ⟨rfl, rfl, rfl, rfl, rfl, rfl, rfl, rfl, rfl,
      fun hc => absurd hc h, fun _ => rfl⟩

/-- Witness for `generation_cancellation`: a stale CLOSE task with
matching token mutates no position field and issues no broker request. -/
theorem generation_cancellation_witness :
    (execute_order_task {} 1 wStaleTask (.success none 100 10)
      wStaleStock).2 = [] ∧
    (execute_order_task {} 1 wStaleTask (.success none 100 10)
      wStaleStock).1.quantity = wStaleStock.quantity := by
  have h := generation_cancellation {} 1 wStaleTask (.success none 100 10)
    wStaleStock (by decide)
  exact ⟨h.1, h.2.2.1⟩

/-- C3 theorem. -/
theorem flip_remainder (s : StrategySettings) (g : Int) (task : OrderTask)
    (stock : StockStatus) (oid : Option String) (p : ℚ) (F : Int)
    (hkind : task.kind = "CLOSE_AND_FLIP") (hgen : task.gen = g)
    (hpending : stock.pending_order = task.pending)
    (hC : 0 ≤ task.close_qty) (hF : F ≠ 0) :
    (task.close_qty < F →
      (execute_order_task s g task (.success oid p F) stock).1.quantity =
        F - task.close_qty ∧
      (execute_order_task s g task (.success oid p F) stock).1.status =
        "ACTIVE" ∧
      (execute_order_task s g task (.success oid p F) stock).1.pending_order
        = "" ∧
      (execute_order_task s g task (.success oid p F) stock).1.mode =
        (if task.flip_to = "SHORT" then "SHORT" else "LONG")) ∧
    (F ≤ task.close_qty →
      (execute_order_task s g task (.success oid p F) stock).1.quantity = 0 ∧
      (execute_order_task s g task (.success oid p F) stock).1.mode =
        "NONE" ∧
      (execute_order_task s g task (.success oid p F) stock).1.status =
        "IDLE" ∧
      (execute_order_task s g task (.success oid p F)
        stock).1.last_order_error =
        "Flip executed without opening new ladder quantity" ∧
      (execute_order_task s g task (.success oid p F) stock).1.pending_order
        = "") := by
  have h1 : ¬(task.gen ≠ g) := by simp [hgen]
  have h2 : ¬(task.pending ≠ "" ∧ stock.pending_order ≠ task.pending) := by
    simp [hpending]
  have h3 : ¬(stock.pending_order ≠ task.pending) := by simp [hpending]
  unfold execute_order_task
  rw [if_neg h1, if_neg h2]
  simp only [hkind, reduceIte, if_neg h3]
  unfold exec_close_and_flip
  simp only [pyOrZ, if_neg hF]
  have hmaxC : max 0 task.close_qty = task.close_qty := max_eq_right hC
  rw [hmaxC]
  constructor
  · intro hlt
    have hne : ¬(F ≤ task.close_qty) := by omega
    have hval : max 0 (F - task.close_qty) = F - task.close_qty := by omega
    by_cases hflip : task.flip_to = "SHORT" <;> simp [hflip, hne, hval]
  · intro hle
    simp [hle]

/-- Concrete CLOSE_AND_FLIP fixture task: close 300 shares, open 100. -/
def wFlipTask : OrderTask :=
  { kind := "CLOSE_AND_FLIP", symbol := "X",
    pending := "CLOSE_AND_FLIP_SHORT", gen := 1, close_qty := 300,
    open_qty := 100, reverse_qty := 400, flip_to := "SHORT", price := 100 }

/-- Concrete LONG position fixture awaiting the flip. -/
def wFlipStock : StockStatus :=
  { fresh_stock "X" 95 with
    pending_order := "CLOSE_AND_FLIP_SHORT"
    status := "PENDING_FLIP"
    mode := "LONG"
    quantity := 300
    avg_entry_price := 100 }

/-- Witness for `flip_remainder`: a 350-share total fill against a
300-share close opens the new ladder with 50 shares, not the requested
100. -/
theorem flip_remainder_witness :
    (execute_order_task {} 1 wFlipTask (.success none 99 350)
      wFlipStock).1.quantity = 350 - 300 ∧
    (execute_order_task {} 1 wFlipTask (.success none 99 350)
      wFlipStock).1.status = "ACTIVE" ∧
    (execute_order_task {} 1 wFlipTask (.success none 99 350)
      wFlipStock).1.mode = "SHORT" := by
  have h := (flip_remainder {} 1 wFlipTask wFlipStock none 99 350
    (by decide) (by decide) (by decide) (by decide) (by decide)).1
    (by decide)
  refine ⟨h.1, h.2.1, ?_⟩
  have hm := h.2.2.2
  simpa using hm

/-- C4 theorem: backpressure rollback. -/
theorem backpressure_rollback (s : StrategySettings) (gen : Int) (other : Nat)
    (v : EngView) (task : OrderTask) (capOk : Bool)
    (m reason final_status flip_to : String) (cin : Option Int)
    (hfull : enqueue_ok other v.queue = false) :
    (enqueue_order gen other v.queue task).1 = false ∧
    (enqueue_order gen other v.queue task).2 = v.queue ∧
    (v.stock.pending_order = "" ∧ v.stock.status = "IDLE" →
      (start_long_ladder s gen other capOk v).queue = v.queue ∧
      (start_long_ladder s gen other capOk v).stock.status = "IDLE" ∧
      (start_long_ladder s gen other capOk v).stock.pending_order = "") ∧
    (v.stock.pending_order = "" ∧ v.stock.status = "IDLE" →
      (start_short_ladder s gen other capOk v).queue = v.queue ∧
      (start_short_ladder s gen other capOk v).stock.status = "IDLE" ∧
      (start_short_ladder s gen other capOk v).stock.pending_order = "") ∧
    (v.stock.pending_order = "" ∧ 0 < v.stock.quantity ∧
        v.stock.mode ≠ "NONE" →
      (close_position gen other reason final_status v).queue = v.queue ∧
      (close_position gen other reason final_status v).stock.status =
        "ACTIVE" ∧
      (close_position gen other reason final_status v).stock.pending_order
        = "") ∧
    (v.stock.pending_order = "" ∧ 0 < v.stock.quantity ∧
        v.stock.mode ≠ "NONE" ∧ (flip_to = "LONG" ∨ flip_to = "SHORT") →
      (close_and_flip s gen other flip_to reason cin v).queue = v.queue ∧
      (close_and_flip s gen other flip_to reason cin v).stock.status =
        "ACTIVE" ∧
      (close_and_flip s gen other flip_to reason cin v).stock.pending_order
        = "") ∧
    (v.stock.pending_order = "" →
      (execute_add_on s gen other m v).queue = v.queue ∧
      (execute_add_on s gen other m v).stock.pending_order = "" ∧
      (execute_add_on s gen other m v).stock.status = v.stock.status) := by
  have henq : enqueue_order gen other v.queue task = (false, v.queue) := by
    unfold enqueue_order
    rw [hfull]
    simp
  refine ⟨by rw [henq], by rw [henq], ?_, ?_, ?_, ?_, ?_⟩
  · rintro ⟨hp, hs⟩
    unfold start_long_ladder
    by_cases hcap : capOk
    · simp only [hcap, not_true, if_neg (by simp : ¬False)]
      rw [if_neg (by simp [hp, hs])]
      unfold enqueue_order
      simp [hfull, mark_pending]
    · simp [hcap, hs, hp]
  · rintro ⟨hp, hs⟩
    unfold start_short_ladder
    by_cases hcap : capOk
    · simp only [hcap, not_true, if_neg (by simp : ¬False)]
      rw [if_neg (by simp [hp, hs])]
      unfold enqueue_order
      simp [hfull, mark_pending]
    · simp [hcap, hs, hp]
  · rintro ⟨hp, hq, hm⟩
    unfold close_position
    rw [if_neg (by simp [hp]), if_neg (by simp [hm]; omega)]
    unfold enqueue_order
    simp [hfull, mark_pending]
  · rintro ⟨hp, hq, hm, hflip⟩
    unfold close_and_flip
    rw [if_neg (by simp [hp]), if_neg (by simp [hm]; omega),
      if_neg (by rcases hflip with h | h <;> simp [h])]
    unfold enqueue_order
    simp [hfull, mark_pending]
  · intro hp
    unfold execute_add_on
    rw [if_neg (by simp [hp])]
    unfold enqueue_order
    simp [hfull, mark_pending]
/-- Settings with zero capacity: the claim's inequality fails against the
raw input `max_ladder_stocks`. -/
def wBadSettings : StrategySettings :=
  { max_ladder_stocks := 0, top_n_gainers := 1, top_n_losers := 0 }

/-- C9 counterexample: with input `max_ladder_stocks = 0`, gainers 1,
losers 0 we have g + l > M, yet after normalization
`top_n_gainers + top_n_losers = 1 > 0 = M`, because the code clamps
`max_ladder_stocks` to at least 1 before comparing. -/
theorem settings_normalization_cex :
    wBadSettings.top_n_gainers + wBadSettings.top_n_losers >
      wBadSettings.max_ladder_stocks ∧
    (normalize_settings wBadSettings).top_n_gainers +
        (normalize_settings wBadSettings).top_n_losers >
      wBadSettings.max_ladder_stocks := by decide

/-- C9 amended: against the clamped capacity `M' = max 1 M` the claim
holds: when the clamped gainers/losers overflow `M'`, losers shrink to
`max 0 (M' - gainers)` (gainers preserved first) and gainers shrink to
`M'` exactly when they alone exceed it, so the normalized sum fits in
`M'`; `max_ladder_stocks`, `max_concurrent_orders` and `cycles_per_stock`
are clamped to at least 1. -/
theorem settings_normalization (settings : StrategySettings)
    (h : max 0 (pyOrZ settings.top_n_gainers 0) +
        max 0 (pyOrZ settings.top_n_losers 0) >
      max 1 (pyOrZ settings.max_ladder_stocks 0)) :
    (normalize_settings settings).top_n_gainers +
        (normalize_settings settings).top_n_losers ≤
      max 1 (pyOrZ settings.max_ladder_stocks 0) ∧
    (normalize_settings settings).top_n_losers =
      max 0 (max 1 (pyOrZ settings.max_ladder_stocks 0) -
        max 0 (pyOrZ settings.top_n_gainers 0)) ∧
    (normalize_settings settings).top_n_gainers =
      (if max 1 (pyOrZ settings.max_ladder_stocks 0) <
          max 0 (pyOrZ settings.top_n_gainers 0) then
        max 1 (pyOrZ settings.max_ladder_stocks 0)
      else max 0 (pyOrZ settings.top_n_gainers 0)) ∧
    (normalize_settings settings).max_ladder_stocks =
      max 1 (pyOrZ settings.max_ladder_stocks 0) ∧
    1 ≤ (normalize_settings settings).max_ladder_stocks ∧
    1 ≤ (normalize_settings settings).max_concurrent_orders ∧
    1 ≤ (normalize_settings settings).cycles_per_stock := by
  unfold normalize_settings
  simp only []
  split_ifs with h1 h2 h3 h4 h5 <;>
    constructor <;>
    try constructor <;> try constructor <;> try constructor <;>
      try constructor <;> try constructor
  all_goals simp_all <;> omega
/-- An ACTIVE LONG holding used by the C4 witness, with an order queue
whose shared capacity is exhausted by other instruments. -/
def wFullView : EngView :=
  ⟨{ fresh_stock "X" 95 with
      mode := "LONG"
      quantity := 10
      status := "ACTIVE"
      ltp := 100 }, []⟩

/-- Witness for `backpressure_rollback`: with the shared queue full, the
enqueue reports failure and a close attempt leaves the instrument ACTIVE
with no pending token. -/
theorem backpressure_rollback_witness :
    (enqueue_order 7 2000 wFullView.queue wStaleTask).1 = false ∧
    (close_position 7 2000 "Stock profit target reached" "CLOSED_MANUAL"
      wFullView).queue = wFullView.queue ∧
    (close_position 7 2000 "Stock profit target reached" "CLOSED_MANUAL"
      wFullView).stock.status = "ACTIVE" ∧
    (close_position 7 2000 "Stock profit target reached" "CLOSED_MANUAL"
      wFullView).stock.pending_order = "" := by
  have h := backpressure_rollback {} 7 2000 wFullView wStaleTask true
    "LONG" "Stock profit target reached" "CLOSED_MANUAL" "SHORT" none
    (by decide)
  have hc := h.2.2.2.2.1 (by decide)
  exact ⟨h.1, hc.1, hc.2.1, hc.2.2⟩

/-- Settings overflowing capacity for the C9 witness. -/
def wOverSettings : StrategySettings :=
  { max_ladder_stocks := 5, top_n_gainers := 8, top_n_losers := 3 }

/-- Witness for `settings_normalization` at capacity 5, gainers 8,
losers 3. -/
theorem settings_normalization_witness :
    (normalize_settings wOverSettings).top_n_gainers +
        (normalize_settings wOverSettings).top_n_losers ≤
      max 1 (pyOrZ wOverSettings.max_ladder_stocks 0) ∧
    (normalize_settings wOverSettings).top_n_losers =
      max 0 (max 1 (pyOrZ wOverSettings.max_ladder_stocks 0) -
        max 0 (pyOrZ wOverSettings.top_n_gainers 0)) ∧
    (normalize_settings wOverSettings).top_n_gainers =
      (if max 1 (pyOrZ wOverSettings.max_ladder_stocks 0) <
          max 0 (pyOrZ wOverSettings.top_n_gainers 0) then
        max 1 (pyOrZ wOverSettings.max_ladder_stocks 0)
      else max 0 (pyOrZ wOverSettings.top_n_gainers 0)) ∧
    (normalize_settings wOverSettings).max_ladder_stocks =
      max 1 (pyOrZ wOverSettings.max_ladder_stocks 0) ∧
    1 ≤ (normalize_settings wOverSettings).max_ladder_stocks ∧
    1 ≤ (normalize_settings wOverSettings).max_concurrent_orders ∧
    1 ≤ (normalize_settings wOverSettings).cycles_per_stock :=
  settings_normalization wOverSettings (by decide)

/-- C5 theorem: finish-ladder-cycle policy and cycle bound. -/
theorem finish_cycle_policy (s : StrategySettings) (gen : Int) (other : Nat)
    (reason : String) (v : EngView)
    (hp : v.stock.pending_order = "") (hq : 0 < v.stock.quantity)
    (hm : v.stock.mode = "LONG" ∨ v.stock.mode = "SHORT")
    (henq : enqueue_ok other v.queue = true) :
    (pyOrZ v.stock.cycle_total 1 ≤ 1 →
      ∃ t, (finish_ladder_cycle s gen other reason v).queue =
          v.queue ++ [t] ∧
        t.kind = "CLOSE" ∧ t.final_status = "CLOSED" ∧
        (finish_ladder_cycle s gen other reason v).stock.status =
          "PENDING_CLOSE") ∧
    (1 < pyOrZ v.stock.cycle_total 1 ∧
        pyOrZ v.stock.cycle_total 1 ≤ v.stock.cycle_index + 1 →
      ∃ t, (finish_ladder_cycle s gen other reason v).queue =
          v.queue ++ [t] ∧
        t.kind = "CLOSE" ∧ t.final_status = "CLOSED_CYCLES" ∧
        (finish_ladder_cycle s gen other reason v).stock.status =
          "PENDING_CLOSE") ∧
    (1 < pyOrZ v.stock.cycle_total 1 ∧
        v.stock.cycle_index + 1 < pyOrZ v.stock.cycle_total 1 →
      ∃ t, (finish_ladder_cycle s gen other reason v).queue =
          v.queue ++ [t] ∧
        t.kind = "CLOSE_AND_FLIP" ∧
        t.cycle_index_next = some (v.stock.cycle_index + 1) ∧
        t.flip_to = (if v.stock.mode = "LONG" then "SHORT" else "LONG") ∧
        (finish_ladder_cycle s gen other reason v).stock.status =
          "PENDING_FLIP") ∧
    (∀ (g' : Int) (task : OrderTask) (stock : StockStatus)
        (oid : Option String) (p : ℚ) (F j : Int),
      task.kind = "CLOSE_AND_FLIP" → task.gen = g' →
      stock.pending_order = task.pending →
      task.cycle_index_next = some j → F ≠ 0 → 0 ≤ task.close_qty →
      task.close_qty < F →
      (execute_order_task s g' task (.success oid p F)
        stock).1.cycle_index = j) ∧
    (∀ T n : Int, 1 ≤ T → (∀ k, 0 ≤ k → k < n → k + 1 < T) →
      n ≤ T - 1) := by
  have hguard : ¬(v.stock.quantity ≤ 0 ∨ v.stock.mode = "NONE") := by
    push_neg
    refine ⟨by omega, ?_⟩
    rcases hm with h | h <;> simp [h]
  refine ⟨?_, ?_, ?_, ?_, ?_⟩
  · intro hT
    unfold finish_ladder_cycle
    rw [if_pos hT]
    unfold close_position
    rw [if_neg (by simp [hp]), if_neg hguard]
    unfold enqueue_order
    simp [henq, mark_pending]
  · rintro ⟨hT1, hTi⟩
    unfold finish_ladder_cycle
    rw [if_neg (by omega), if_pos (by omega)]
    unfold close_position
    rw [if_neg (by simp [hp]), if_neg hguard]
    unfold enqueue_order
    simp [henq, mark_pending]
  · rintro ⟨hT1, hTi⟩
    unfold finish_ladder_cycle
    rw [if_neg (by omega), if_neg (by omega)]
    unfold close_and_flip
    rw [if_neg (by simp [hp]), if_neg hguard,
      if_neg (by rcases hm with h | h <;> simp [h])]
    unfold enqueue_order
    rcases hm with h | h <;> simp [h, henq, mark_pending]
  · intro g' task stock oid p F j hkind hgen hpending hnext hF hC hlt
    have h := (flip_remainder s g' task stock oid p F hkind hgen hpending
      hC hF).1 hlt
    -- recompute: we need cycle_index, not covered by flip_remainder; redo.
    have h1 : ¬(task.gen ≠ g') := by simp [hgen]
    have h2 : ¬(task.pending ≠ "" ∧ stock.pending_order ≠ task.pending) := by
      simp [hpending]
    have h3 : ¬(stock.pending_order ≠ task.pending) := by simp [hpending]
    unfold execute_order_task
    rw [if_neg h1, if_neg h2]
    simp only [hkind, reduceIte, if_neg h3]
    unfold exec_close_and_flip
    simp only [pyOrZ, if_neg hF]
    have hmaxC : max 0 task.close_qty = task.close_qty := max_eq_right hC
    rw [hmaxC]
    have hne : ¬(F ≤ task.close_qty) := by omega
    by_cases hflip : task.flip_to = "SHORT" <;>
      simp [hflip, hne, hnext]
  · intro T n hT hstep
    by_cases hn : n ≤ 0
    · omega
    · have := hstep (n - 1) (by omega) (by omega)
      omega

/-- ACTIVE LONG instrument on cycle 1 of 3 for the C5 witness. -/
def wCycleView : EngView :=
  ⟨{ fresh_stock "X" 95 with
      mode := "LONG"
      quantity := 10
      status := "ACTIVE"
      ltp := 100
      cycle_total := 3
      cycle_index := 0 }, []⟩

/-- Witness for `finish_cycle_policy`: on cycle 1 of 3 the finish flips,
advancing the cycle index to 1. -/
theorem finish_cycle_policy_witness :
    ∃ t, (finish_ladder_cycle {} 1 0 "Target Hit" wCycleView).queue =
        wCycleView.queue ++ [t] ∧
      t.kind = "CLOSE_AND_FLIP" ∧
      t.cycle_index_next = some (wCycleView.stock.cycle_index + 1) ∧
      t.flip_to =
        (if wCycleView.stock.mode = "LONG" then "SHORT" else "LONG") ∧
      (finish_ladder_cycle {} 1 0 "Target Hit" wCycleView).stock.status =
        "PENDING_FLIP" := by
  have h := finish_cycle_policy {} 1 0 "Target Hit" wCycleView (by decide)
    (by decide) (by decide) (by decide)
  exact h.2.2.1 (by decide)

/-- `a or a` is `a`. -/
theorem pyOrQ_self (a : ℚ) : pyOrQ a a = a := ite_self a

/-- `a or a` is `a` (integers). -/
theorem pyOrZ_self (a : Int) : pyOrZ a a = a := ite_self a

/-- A ladder's ADD_ON fill stream: each element is executed as an ADD_ON
task for (price, qty) whose broker success fills exactly that price and
quantity (the executor's `exec_price or price` / `exec_qty or qty`
fallbacks agree on both sources). -/
def apply_add_ons (s : StrategySettings) (g : Int) (m : String) :
    List (ℚ × Int) → StockStatus → StockStatus
  | [], stock => stock
  | pq :: rest, stock =>
      apply_add_ons s g m rest
        (execute_order_task s g
          { kind := "ADD_ON", symbol := stock.symbol, pending := "",
            mode := m, qty := pq.2, price := pq.1, gen := g }
          (.success none pq.1 pq.2) stock).1

/-- Total quantity of a fill stream. -/
def fills_qty : List (ℚ × Int) → Int
  | [] => 0
  | pq :: l => pq.2 + fills_qty l

/-- Total value (price times quantity) of a fill stream. -/
def fills_value : List (ℚ × Int) → ℚ
  | [] => 0
  | pq :: l => pq.1 * (pq.2 : ℚ) + fills_value l

/-- One successful ADD_ON execution on an open position: the quantity
grows by the fill quantity and the average entry becomes the
quantity-weighted average of the prior position and the fill. -/
theorem exec_add_on_success (s : StrategySettings) (g : Int)
    (task : OrderTask) (oid : Option String) (p : ℚ) (q : Int)
    (stock : StockStatus)
    (hkind : task.kind = "ADD_ON") (hgen : task.gen = g)
    (hpend : stock.pending_order = task.pending)
    (hq : 0 < stock.quantity) (hv : 0 < stock.avg_entry_price) :
    ((execute_order_task s g task (.success oid p q) stock).1.quantity =
      stock.quantity + pyOrZ q task.qty) ∧
    ((execute_order_task s g task
        (.success oid p q) stock).1.avg_entry_price =
      (stock.avg_entry_price * (stock.quantity : ℚ) +
          pyOrQ p task.price * (pyOrZ q task.qty : ℚ)) /
        ((stock.quantity : ℚ) + (pyOrZ q task.qty : ℚ))) ∧
    ((execute_order_task s g task (.success oid p q) stock).1.pending_order
      = "") ∧
    ((execute_order_task s g task (.success oid p q) stock).1.symbol =
      stock.symbol) ∧
    ((execute_order_task s g task (.success oid p q) stock).1.mode =
      stock.mode) := by
  have h1 : ¬(task.gen ≠ g) := by simp [hgen]
  have h2 : ¬(task.pending ≠ "" ∧ stock.pending_order ≠ task.pending) := by
    simp [hpend]
  have h3 : ¬(stock.pending_order ≠ task.pending) := by simp [hpend]
  unfold execute_order_task
  rw [if_neg h1, if_neg h2]
  simp only [hkind, String.reduceEq, reduceIte, if_neg h3]
  unfold exec_add_on
  dsimp only
  rw [if_pos (show stock.quantity > 0 ∧ stock.avg_entry_price > 0 from
    ⟨hq, hv⟩)]
  by_cases hm : task.mode = "LONG" <;> simp [hm]

/-- Folding a whole ADD_ON fill stream over an open position keeps the
average entry equal to total traded value over total quantity. -/
theorem apply_add_ons_spec (s : StrategySettings) (g : Int) (m : String)
    (fills : List (ℚ × Int)) :
    ∀ stock : StockStatus, stock.pending_order = "" →
      0 < stock.quantity → 0 < stock.avg_entry_price →
      (∀ pq ∈ fills, 0 ≤ pq.1 ∧ 0 ≤ pq.2) →
      (apply_add_ons s g m fills stock).quantity =
        stock.quantity + fills_qty fills ∧
      (apply_add_ons s g m fills stock).avg_entry_price =
        (stock.avg_entry_price * (stock.quantity : ℚ) + fills_value fills) /
          ((stock.quantity : ℚ) + (fills_qty fills : ℚ)) ∧
      (apply_add_ons s g m fills stock).pending_order = "" := by
  induction fills with
  | nil =>
      intro stock hp hq hv _
      have hQ : ((stock.quantity : ℚ)) ≠ 0 := by
        exact_mod_cast (by omega : stock.quantity ≠ 0)
      unfold apply_add_ons
      refine ⟨by simp [fills_qty], ?_, hp⟩
      simp only [fills_qty, fills_value]
      push_cast
      field_simp
  | cons pq rest ih =>
      intro stock hp hq hv hfills
      have hfpq := hfills pq (by simp)
      have hrest : ∀ x ∈ rest, 0 ≤ x.1 ∧ 0 ≤ x.2 := by
        intro x hx
        exact hfills x (by simp [hx])
      have hstep := exec_add_on_success s g
        { kind := "ADD_ON", symbol := stock.symbol, pending := "",
          mode := m, qty := pq.2, price := pq.1, gen := g }
        none pq.1 pq.2 stock rfl rfl hp hq hv
      rw [pyOrZ_self, pyOrQ_self] at hstep
      obtain ⟨hq1, hv1, hp1, _, _⟩ := hstep
      have hq1' : 0 < ((execute_order_task s g
          { kind := "ADD_ON", symbol := stock.symbol, pending := "",
            mode := m, qty := pq.2, price := pq.1, gen := g }
          (.success none pq.1 pq.2) stock).1).quantity := by
        rw [hq1]; omega
      have hQpos : (0 : ℚ) < (stock.quantity : ℚ) := by exact_mod_cast hq
      have hden : (0 : ℚ) < (stock.quantity : ℚ) + (pq.2 : ℚ) := by
        have : (0 : ℚ) ≤ (pq.2 : ℚ) := by exact_mod_cast hfpq.2
        linarith
      have hnum : (0 : ℚ) <
          stock.avg_entry_price * (stock.quantity : ℚ) +
            pq.1 * (pq.2 : ℚ) := by
        have h1 : (0 : ℚ) < stock.avg_entry_price * (stock.quantity : ℚ) :=
          mul_pos hv hQpos
        have h2 : (0 : ℚ) ≤ pq.1 * (pq.2 : ℚ) :=
          mul_nonneg hfpq.1 (by exact_mod_cast hfpq.2)
        linarith
      have hv1' : 0 < ((execute_order_task s g
          { kind := "ADD_ON", symbol := stock.symbol, pending := "",
            mode := m, qty := pq.2, price := pq.1, gen := g }
          (.success none pq.1 pq.2) stock).1).avg_entry_price := by
        rw [hv1]
        exact div_pos hnum hden
      have hrec := ih _ hp1 hq1' hv1' hrest
      unfold apply_add_ons
      refine ⟨?_, ?_, hrec.2.2⟩
      · rw [hrec.1, hq1]
        simp [fills_qty]
        omega
      · rw [hrec.2.1, hq1, hv1]
        simp only [fills_value, fills_qty]
        have hden' : ((stock.quantity : ℚ) + (pq.2 : ℚ)) ≠ 0 := ne_of_gt hden
        push_cast
        rw [div_mul_cancel₀ _ hden']
        ring_nf

/-- `a or b` is `a` when `a` is truthy. -/
theorem pyOrQ_of_ne (a b : ℚ) (h : a ≠ 0) : pyOrQ a b = a := if_neg h

/-- `a or b` is `a` when `a` is truthy (integers). -/
theorem pyOrZ_of_ne (a b : Int) (h : a ≠ 0) : pyOrZ a b = a := if_neg h

/-- C6: for a ladder consisting of a successfully executed start fill
(price `p0`, quantity `q0`) followed by any sequence of successfully
executed ADD_ON fills, the average entry price after the whole sequence is
the quantity-weighted average of all the ladder's fills,
`(p0*q0 + Σ p_i*q_i) / (q0 + Σ q_i)` (exactly, in the rational model),
and the quantity is the total filled quantity; the average is recomputed
on each ADD_ON and never reset. -/
theorem weighted_average_entry (s : StrategySettings) (g : Int)
    (task0 : OrderTask) (oid : Option String) (p0 : ℚ) (q0 : Int)
    (m : String) (fills : List (ℚ × Int)) (st0 : StockStatus)
    (hkind : task0.kind = "START_LONG" ∨ task0.kind = "START_SHORT")
    (hgen : task0.gen = g) (hpend : st0.pending_order = task0.pending)
    (hp0 : 0 < p0) (hq0 : 0 < q0)
    (hfills : ∀ pq ∈ fills, 0 ≤ pq.1 ∧ 0 ≤ pq.2) :
    (apply_add_ons s g m fills
        (execute_order_task s g task0 (.success oid p0 q0) st0).1).quantity
      = q0 + fills_qty fills ∧
    (apply_add_ons s g m fills
        (execute_order_task s g task0
          (.success oid p0 q0) st0).1).avg_entry_price =
      (p0 * (q0 : ℚ) + fills_value fills) /
        ((q0 : ℚ) + (fills_qty fills : ℚ)) := by
  have h1 : ¬(task0.gen ≠ g) := by simp [hgen]
  have h2 : ¬(task0.pending ≠ "" ∧ st0.pending_order ≠ task0.pending) := by
    simp [hpend]
  have h3 : ¬(st0.pending_order ≠ task0.pending) := by simp [hpend]
  have hstart :
      (execute_order_task s g task0 (.success oid p0 q0) st0).1.quantity =
        q0 ∧
      (execute_order_task s g task0
        (.success oid p0 q0) st0).1.avg_entry_price = p0 ∧
      (execute_order_task s g task0
        (.success oid p0 q0) st0).1.pending_order = "" := by
    rcases hkind with hk | hk
    · unfold execute_order_task exec_start_long
      rw [if_neg h1, if_neg h2]
      simp only [hk, String.reduceEq, reduceIte, if_neg h3]
      simp [pyOrQ_of_ne _ _ (ne_of_gt hp0),
        pyOrZ_of_ne _ _ (by omega : q0 ≠ 0)]
    · unfold execute_order_task exec_start_short
      rw [if_neg h1, if_neg h2]
      simp only [hk, String.reduceEq, reduceIte, if_neg h3]
      simp [pyOrQ_of_ne _ _ (ne_of_gt hp0),
        pyOrZ_of_ne _ _ (by omega : q0 ≠ 0)]
  obtain ⟨hsq, hsv, hsp⟩ := hstart
  have h := apply_add_ons_spec s g m fills
    (execute_order_task s g task0 (.success oid p0 q0) st0).1 hsp
    (by rw [hsq]; exact hq0) (by rw [hsv]; exact hp0) hfills
  refine ⟨?_, ?_⟩
  · rw [h.1, hsq]
  · rw [h.2.1, hsq, hsv]

/-- Start task fixture for the C6 witness. -/
def wStartTask : OrderTask :=
  { kind := "START_LONG", symbol := "X", pending := "START_LONG", gen := 1,
    qty := 100, price := 100 }

/-- Idle instrument awaiting its start fill, for the C6 witness. -/
def wStartStock : StockStatus :=
  { fresh_stock "X" 95 with
    pending_order := "START_LONG"
    status := "PENDING_LONG" }

/-- Witness for `weighted_average_entry`: a 100-share start fill at 100
followed by add-on fills of 10 shares at 101 and 5 shares at 104 gives an
average entry of (100*100 + 101*10 + 104*5)/115. -/
theorem weighted_average_entry_witness :
    (apply_add_ons {} 1 "LONG" [(101, 10), (104, 5)]
        (execute_order_task {} 1 wStartTask
          (.success none 100 100) wStartStock).1).quantity =
      100 + fills_qty [(101, 10), (104, 5)] ∧
    (apply_add_ons {} 1 "LONG" [(101, 10), (104, 5)]
        (execute_order_task {} 1 wStartTask
          (.success none 100 100) wStartStock).1).avg_entry_price =
      (100 * ((100 : Int) : ℚ) + fills_value [(101, 10), (104, 5)]) /
        (((100 : Int) : ℚ) + ((fills_qty [(101, 10), (104, 5)] : Int) : ℚ)) :=
  weighted_average_entry {} 1 wStartTask none 100 100 "LONG"
    [(101, 10), (104, 5)] wStartStock (Or.inl rfl) rfl rfl (by norm_num)
    (by norm_num) (by norm_num)

/-- Agreement on every field that is not a pure display/bookkeeping field
of the tick refresh (two stocks may differ only in ltp, change_pct, pnl,
day_open, open_gap_pct, last_volume, turnover, high_watermark). -/
def display_eq (a b : StockStatus) : Prop :=
  a.symbol = b.symbol ∧ a.mode = b.mode ∧ a.status = b.status ∧
  a.stop_loss = b.stop_loss ∧ a.target = b.target ∧
  a.next_add_on = b.next_add_on ∧ a.quantity = b.quantity ∧
  a.avg_entry_price = b.avg_entry_price ∧ a.entry_price = b.entry_price ∧
  a.ladder_level = b.ladder_level ∧ a.pending_order = b.pending_order ∧
  a.last_order_error = b.last_order_error ∧ a.order_ids = b.order_ids ∧
  a.cycle_index = b.cycle_index ∧ a.cycle_total = b.cycle_total ∧
  a.cycle_start_mode = b.cycle_start_mode ∧ a.prev_close = b.prev_close

theorem display_eq_refl (a : StockStatus) : display_eq a a := by
  unfold display_eq
  exact ⟨rfl, rfl, rfl, rfl, rfl, rfl, rfl, rfl, rfl, rfl, rfl, rfl, rfl,
    rfl, rfl, rfl, rfl⟩

theorem display_eq_trans {a b c : StockStatus} (h1 : display_eq a b)
    (h2 : display_eq b c) : display_eq a c := by
  unfold display_eq at h1 h2 ⊢
  obtain ⟨e1, e2, e3, e4, e5, e6, e7, e8, e9, e10, e11, e12, e13, e14, e15,
    e16, e17⟩ := h1
  obtain ⟨f1, f2, f3, f4, f5, f6, f7, f8, f9, f10, f11, f12, f13, f14, f15,
    f16, f17⟩ := h2
  exact ⟨e1.trans f1, e2.trans f2, e3.trans f3, e4.trans f4, e5.trans f5,
    e6.trans f6, e7.trans f7, e8.trans f8, e9.trans f9, e10.trans f10,
    e11.trans f11, e12.trans f12, e13.trans f13, e14.trans f14,
    e15.trans f15, e16.trans f16, e17.trans f17⟩

/-- The tick-time display refresh only touches display fields. -/
theorem tick_refresh_display (ltp volume : ℚ) (stock : StockStatus) :
    display_eq stock (tick_refresh ltp volume stock) := by
  unfold tick_refresh
  refine display_eq_trans (b := tick_update_price ltp volume stock) ?_
    (display_eq_trans
      (b := tick_update_turnover ltp volume (tick_update_price ltp volume stock)) ?_
      (display_eq_trans
        (b := tick_update_day_open ltp
          (tick_update_turnover ltp volume (tick_update_price ltp volume stock))) ?_
        (display_eq_trans
          (b := tick_update_change_pct ltp
            (tick_update_day_open ltp
              (tick_update_turnover ltp volume (tick_update_price ltp volume stock)))) ?_
          (display_eq_trans
            (b := tick_update_watermark ltp
              (tick_update_change_pct ltp
                (tick_update_day_open ltp
                  (tick_update_turnover ltp volume
                    (tick_update_price ltp volume stock))))) ?_ ?_))))
  · unfold tick_update_price display_eq
    simp
  · unfold tick_update_turnover display_eq
    split_ifs <;> simp
  · unfold tick_update_day_open display_eq
    split_ifs <;> simp
  · unfold tick_update_change_pct display_eq
    split_ifs <;> simp
  · unfold tick_update_watermark display_eq
    split_ifs <;> simp
  · unfold tick_update_pnl display_eq
    split_ifs <;> simp

/-- Fields a tick-side producer (`execute_add_on`, `close_position`,
`_close_and_flip`, `_finish_ladder_cycle` and the P&L limit closes) never
mutates: everything except status, pending token and error string. -/
def producer_frame (v w : EngView) : Prop :=
  w.stock.symbol = v.stock.symbol ∧
  w.stock.mode = v.stock.mode ∧
  w.stock.stop_loss = v.stock.stop_loss ∧
  w.stock.target = v.stock.target ∧
  w.stock.next_add_on = v.stock.next_add_on ∧
  w.stock.quantity = v.stock.quantity ∧
  w.stock.avg_entry_price = v.stock.avg_entry_price ∧
  w.stock.entry_price = v.stock.entry_price ∧
  w.stock.ladder_level = v.stock.ladder_level ∧
  w.stock.high_watermark = v.stock.high_watermark ∧
  w.stock.ltp = v.stock.ltp ∧
  w.stock.pnl = v.stock.pnl ∧
  w.stock.cycle_index = v.stock.cycle_index ∧
  w.stock.cycle_total = v.stock.cycle_total

theorem producer_frame_refl (v : EngView) : producer_frame v v := by
  unfold producer_frame
  exact ⟨rfl, rfl, rfl, rfl, rfl, rfl, rfl, rfl, rfl, rfl, rfl, rfl, rfl,
    rfl⟩

theorem execute_add_on_frame (s : StrategySettings) (gen : Int)
    (other : Nat) (m : String) (v : EngView) :
    producer_frame v (execute_add_on s gen other m v) := by
  unfold execute_add_on producer_frame mark_pending
  dsimp only
  split_ifs <;> simp

theorem close_position_frame (gen : Int) (other : Nat)
    (reason final_status : String) (v : EngView) :
    producer_frame v (close_position gen other reason final_status v) := by
  unfold close_position producer_frame mark_pending
  dsimp only
  split_ifs <;> simp

theorem close_and_flip_frame (s : StrategySettings) (gen : Int)
    (other : Nat) (flip_to reason : String) (cin : Option Int)
    (v : EngView) :
    producer_frame v (close_and_flip s gen other flip_to reason cin v) := by
  unfold close_and_flip producer_frame mark_pending
  dsimp only
  split_ifs <;> simp

theorem finish_ladder_cycle_frame (s : StrategySettings) (gen : Int)
    (other : Nat) (reason : String) (v : EngView) :
    producer_frame v (finish_ladder_cycle s gen other reason v) := by
  unfold finish_ladder_cycle
  dsimp only
  split_ifs <;>
    first
      | exact close_position_frame ..
      | exact close_and_flip_frame ..

theorem tick_pnl_limits_frame (s : StrategySettings) (gen : Int)
    (other : Nat) (v : EngView) :
    producer_frame v (tick_pnl_limits s gen other v) := by
  unfold tick_pnl_limits
  dsimp only
  split_ifs <;>
    first
      | exact close_position_frame ..
      | exact producer_frame_refl v

/-- Tick-time LONG processing never lowers the stop and keeps the mode. -/
theorem process_long_position_stop (s : StrategySettings) (gen : Int)
    (other : Nat) (v : EngView) :
    v.stock.stop_loss ≤
      (process_long_position s gen other v).stock.stop_loss ∧
    (process_long_position s gen other v).stock.mode = v.stock.mode ∧
    (process_long_position s gen other v).stock.quantity =
      v.stock.quantity ∧
    (process_long_position s gen other v).stock.avg_entry_price =
      v.stock.avg_entry_price := by
  unfold process_long_position
  by_cases h1 : v.stock.ltp ≥ v.stock.target
  · rw [if_pos h1]
    obtain ⟨_, hmode, hstop, _, _, hqty, havg, _⟩ :=
      finish_ladder_cycle_frame s gen other "Target Hit" v
    exact ⟨le_of_eq hstop.symm, hmode, hqty, havg⟩
  · rw [if_neg h1]
    by_cases h2 : v.stock.ltp ≤ v.stock.stop_loss
    · rw [if_pos h2]
      obtain ⟨_, hmode, hstop, _, _, hqty, havg, _⟩ :=
        finish_ladder_cycle_frame s gen other "SL Hit" v
      exact ⟨le_of_eq hstop.symm, hmode, hqty, havg⟩
    · rw [if_neg h2]
      dsimp only
      have hfr : producer_frame v
          (if v.stock.ladder_level < s.no_of_add_ons ∧
              v.stock.ltp ≥ v.stock.next_add_on
          then execute_add_on s gen other "LONG" v else v) := by
        split_ifs
        · exact execute_add_on_frame ..
        · exact producer_frame_refl v
      set v1 := (if v.stock.ladder_level < s.no_of_add_ons ∧
          v.stock.ltp ≥ v.stock.next_add_on
        then execute_add_on s gen other "LONG" v else v) with hv1
      obtain ⟨_, hmode, hstop, _, _, hqty, havg, _⟩ := hfr
      by_cases h3 : v1.stock.high_watermark > 0 ∧
          v1.stock.high_watermark * (1 - tsl_mult s) > v1.stock.stop_loss
      · rw [if_pos h3]
        refine ⟨?_, by simp [hmode], by simp [hqty], by simp [havg]⟩
        show v.stock.stop_loss ≤ v1.stock.high_watermark * (1 - tsl_mult s)
        calc v.stock.stop_loss = v1.stock.stop_loss := hstop.symm
          _ ≤ v1.stock.high_watermark * (1 - tsl_mult s) := le_of_lt h3.2
      · rw [if_neg h3]
        exact ⟨le_of_eq hstop.symm, hmode, hqty, havg⟩

/-- Tick-time SHORT processing never raises a set stop, keeps it set, and
keeps mode, quantity and average entry. -/
theorem process_short_position_stop (s : StrategySettings) (gen : Int)
    (other : Nat) (v : EngView) (htsl : 0 ≤ tsl_mult s)
    (hstop : 0 < v.stock.stop_loss) :
    (process_short_position s gen other v).stock.stop_loss ≤
      v.stock.stop_loss ∧
    0 < (process_short_position s gen other v).stock.stop_loss ∧
    (process_short_position s gen other v).stock.mode = v.stock.mode ∧
    (process_short_position s gen other v).stock.quantity =
      v.stock.quantity ∧
    (process_short_position s gen other v).stock.avg_entry_price =
      v.stock.avg_entry_price := by
  unfold process_short_position
  by_cases h1 : v.stock.ltp ≤ v.stock.target
  · rw [if_pos h1]
    obtain ⟨_, hmode, hst, _, _, hqty, havg, _⟩ :=
      finish_ladder_cycle_frame s gen other "Target Hit" v
    exact ⟨le_of_eq hst, hst ▸ hstop, hmode, hqty, havg⟩
  · rw [if_neg h1]
    by_cases h2 : v.stock.ltp ≥ v.stock.stop_loss
    · rw [if_pos h2]
      obtain ⟨_, hmode, hst, _, _, hqty, havg, _⟩ :=
        finish_ladder_cycle_frame s gen other "SL Hit" v
      exact ⟨le_of_eq hst, hst ▸ hstop, hmode, hqty, havg⟩
    · rw [if_neg h2]
      dsimp only
      have hfr : producer_frame v
          (if v.stock.ladder_level < s.no_of_add_ons ∧
              v.stock.ltp ≤ v.stock.next_add_on
          then execute_add_on s gen other "SHORT" v else v) := by
        split_ifs
        · exact execute_add_on_frame ..
        · exact producer_frame_refl v
      set v1 := (if v.stock.ladder_level < s.no_of_add_ons ∧
          v.stock.ltp ≤ v.stock.next_add_on
        then execute_add_on s gen other "SHORT" v else v) with hv1
      obtain ⟨_, hmode, hst, _, _, hqty, havg, _⟩ := hfr
      by_cases h3 : v1.stock.high_watermark > 0 ∧
          (v1.stock.high_watermark * (1 + tsl_mult s) < v1.stock.stop_loss ∨
            v1.stock.stop_loss = 0)
      · rw [if_pos h3]
        have hdyn : 0 < v1.stock.high_watermark * (1 + tsl_mult s) :=
          mul_pos h3.1 (by linarith)
        have hlt : v1.stock.high_watermark * (1 + tsl_mult s) <
            v1.stock.stop_loss := by
          rcases h3.2 with h | h
          · exact h
          · rw [hst] at h
            exact absurd h (ne_of_gt hstop)
        refine ⟨?_, ?_, by simp [hmode], by simp [hqty], by simp [havg]⟩
        · show v1.stock.high_watermark * (1 + tsl_mult s) ≤ v.stock.stop_loss
          calc v1.stock.high_watermark * (1 + tsl_mult s) ≤
              v1.stock.stop_loss := le_of_lt hlt
            _ = v.stock.stop_loss := hst
        · show 0 < v1.stock.high_watermark * (1 + tsl_mult s)
          exact hdyn
      · rw [if_neg h3]
        exact ⟨le_of_eq hst, hst ▸ hstop, hmode, hqty, havg⟩

/-- A processed tick on a LONG instrument never lowers the stop. -/
theorem tick_stop_long (s : StrategySettings) (other : Nat) (halted : Bool)
    (ltp volume : ℚ) (st : EngState) (hmode : st.stock.mode = "LONG") :
    st.stock.stop_loss ≤
      (engine_step s (.tick other halted ltp volume) st).stock.stop_loss ∧
    (engine_step s (.tick other halted ltp volume) st).stock.mode =
      "LONG" ∧
    (engine_step s (.tick other halted ltp volume) st).stock.quantity =
      st.stock.quantity ∧
    (engine_step s
      (.tick other halted ltp volume) st).stock.avg_entry_price =
      st.stock.avg_entry_price := by
  unfold engine_step
  dsimp only
  unfold process_tick
  by_cases hrun : st.running
  · rw [if_neg (by simp [hrun])]
    by_cases hstat : st.stock.status = "STOPPED" ∨
        py_startswith st.stock.status "CLOSED"
    · rw [if_pos hstat]
      exact ⟨le_refl _, hmode, rfl, rfl⟩
    · rw [if_neg hstat]
      dsimp only
      obtain ⟨_, dmode, _, dstop, _, _, dqty, davg, _⟩ :=
        tick_refresh_display ltp volume st.stock
      by_cases hhalt : halted
      · rw [if_pos (by simp [hhalt])]
        exact ⟨le_of_eq dstop, dmode ▸ hmode, dqty.symm, davg.symm⟩
      · rw [if_neg (by simp [hhalt])]
        by_cases hpend :
            (tick_refresh ltp volume st.stock).pending_order ≠ ""
        · rw [if_pos hpend]
          exact ⟨le_of_eq dstop, dmode ▸ hmode, dqty.symm, davg.symm⟩
        · rw [if_neg hpend]
          rw [if_pos (dmode ▸ hmode :
            (tick_refresh ltp volume st.stock).mode = "LONG")]
          obtain ⟨pstop, pmode, pqty, pavg⟩ :=
            process_long_position_stop s st.gen other
              ⟨tick_refresh ltp volume st.stock, st.queue⟩
          obtain ⟨_, fmode, fstop, _, _, fqty, favg, _⟩ :=
            tick_pnl_limits_frame s st.gen other
              (process_long_position s st.gen other
                ⟨tick_refresh ltp volume st.stock, st.queue⟩)
          refine ⟨?_, ?_, ?_, ?_⟩
          · rw [fstop]
            exact le_of_eq dstop |>.trans pstop
          · rw [fmode, pmode]
            exact dmode ▸ hmode
          · rw [fqty, pqty]
            exact dqty.symm
          · rw [favg, pavg]
            exact davg.symm
  · rw [if_pos (by simp [hrun])]
    exact ⟨le_refl _, hmode, rfl, rfl⟩

/-- A processed tick on a SHORT instrument with a set stop never raises
it and keeps it set. -/
theorem tick_stop_short (s : StrategySettings) (other : Nat)
    (halted : Bool) (ltp volume : ℚ) (st : EngState)
    (htsl : 0 ≤ tsl_mult s)
    (hmode : st.stock.mode = "SHORT") (hstop : 0 < st.stock.stop_loss) :
    ((engine_step s (.tick other halted ltp volume) st).stock.stop_loss ≤
      st.stock.stop_loss ∧
    0 < (engine_step s
      (.tick other halted ltp volume) st).stock.stop_loss) ∧
    (engine_step s (.tick other halted ltp volume) st).stock.mode =
      "SHORT" ∧
    (engine_step s (.tick other halted ltp volume) st).stock.quantity =
      st.stock.quantity ∧
    (engine_step s
      (.tick other halted ltp volume) st).stock.avg_entry_price =
      st.stock.avg_entry_price := by
  unfold engine_step
  dsimp only
  unfold process_tick
  by_cases hrun : st.running
  · rw [if_neg (by simp [hrun])]
    by_cases hstat : st.stock.status = "STOPPED" ∨
        py_startswith st.stock.status "CLOSED"
    · rw [if_pos hstat]
      exact ⟨⟨le_refl _, hstop⟩, hmode, rfl, rfl⟩
    · rw [if_neg hstat]
      dsimp only
      obtain ⟨_, dmode, _, dstop, _, _, dqty, davg, _⟩ :=
        tick_refresh_display ltp volume st.stock
      by_cases hhalt : halted
      · rw [if_pos (by simp [hhalt])]
        exact ⟨⟨le_of_eq dstop.symm, dstop ▸ hstop⟩, dmode ▸ hmode,
          dqty.symm, davg.symm⟩
      · rw [if_neg (by simp [hhalt])]
        by_cases hpend :
            (tick_refresh ltp volume st.stock).pending_order ≠ ""
        · rw [if_pos hpend]
          exact ⟨⟨le_of_eq dstop.symm, dstop ▸ hstop⟩, dmode ▸ hmode,
            dqty.symm, davg.symm⟩
        · rw [if_neg hpend]
          rw [if_neg (by
            rw [← dmode, hmode]
            decide), if_pos (dmode ▸ hmode :
              (tick_refresh ltp volume st.stock).mode = "SHORT")]
          obtain ⟨pstop, ppos, pmode, pqty, pavg⟩ :=
            process_short_position_stop s st.gen other
              ⟨tick_refresh ltp volume st.stock, st.queue⟩ htsl
              (dstop ▸ hstop)
          obtain ⟨_, fmode, fstop, _, _, fqty, favg, _⟩ :=
            tick_pnl_limits_frame s st.gen other
              (process_short_position s st.gen other
                ⟨tick_refresh ltp volume st.stock, st.queue⟩)
          refine ⟨⟨?_, ?_⟩, ?_, ?_, ?_⟩
          · rw [fstop]
            exact pstop.trans (le_of_eq dstop.symm)
          · rw [fstop]
            exact ppos
          · rw [fmode, pmode]
            exact dmode ▸ hmode
          · rw [fqty, pqty]
            exact dqty.symm
          · rw [favg, pavg]
            exact davg.symm
  · rw [if_pos (by simp [hrun])]
    exact ⟨⟨le_refl _, hstop⟩, hmode, rfl, rfl⟩

/-- The stale-generation revert never touches position fields. -/
theorem stale_revert_frame (task : OrderTask) (stock : StockStatus) :
    (stale_revert task stock).stop_loss = stock.stop_loss ∧
    (stale_revert task stock).mode = stock.mode ∧
    (stale_revert task stock).quantity = stock.quantity ∧
    (stale_revert task stock).avg_entry_price = stock.avg_entry_price := by
  unfold stale_revert
  split_ifs <;> simp

/-- Executing an ADD_ON task for a LONG ladder never lowers the stop. -/
theorem execute_add_on_task_stop_long (s : StrategySettings) (g : Int)
    (task : OrderTask) (br : BrokerResult) (stock : StockStatus)
    (hk : task.kind = "ADD_ON") (hm : task.mode = "LONG") :
    stock.stop_loss ≤ (execute_order_task s g task br stock).1.stop_loss ∧
    (execute_order_task s g task br stock).1.mode = stock.mode := by
  unfold execute_order_task
  by_cases hg : task.gen ≠ g
  · rw [if_pos hg]
    obtain ⟨h1, h2, _, _⟩ := stale_revert_frame task stock
    exact ⟨le_of_eq h1.symm, h2⟩
  · rw [if_neg hg]
    by_cases hp : task.pending ≠ "" ∧ stock.pending_order ≠ task.pending
    · rw [if_pos hp]
      exact ⟨le_refl _, rfl⟩
    · rw [if_neg hp]
      simp only [hk, String.reduceEq, reduceIte]
      by_cases hp2 : stock.pending_order ≠ task.pending
      · rw [if_pos hp2]
        exact ⟨le_refl _, rfl⟩
      · rw [if_neg hp2]
        unfold exec_add_on
        match br with
        | .failure msg => exact ⟨le_refl _, rfl⟩
        | .success oid ep eq =>
            dsimp only
            simp only [hm, reduceIte]
            split_ifs <;>
              refine ⟨?_, ?_⟩ <;>
              first
                | trivial
                | exact le_refl _
                | exact le_of_lt (by assumption)

/-- Executing an ADD_ON task for a SHORT ladder with a set stop never
raises it, keeps it positive, and keeps the position open with a positive
average entry (given non-negative requested and filled prices and
quantities). -/
theorem execute_add_on_task_stop_short (s : StrategySettings) (g : Int)
    (task : OrderTask) (br : BrokerResult) (stock : StockStatus)
    (hk : task.kind = "ADD_ON") (hm : task.mode = "SHORT")
    (hisl : 0 ≤ init_sl_mult s)
    (hstop : 0 < stock.stop_loss) (hqty : 0 < stock.quantity)
    (havg : 0 < stock.avg_entry_price)
    (htq : 0 ≤ task.qty) (htp : 0 ≤ task.price)
    (hbr : ∀ oid ep eq, br = .success oid ep eq → 0 ≤ ep ∧ 0 ≤ eq) :
    ((execute_order_task s g task br stock).1.stop_loss ≤
        stock.stop_loss ∧
      0 < (execute_order_task s g task br stock).1.stop_loss) ∧
    (execute_order_task s g task br stock).1.mode = stock.mode ∧
    0 < (execute_order_task s g task br stock).1.quantity ∧
    0 < (execute_order_task s g task br stock).1.avg_entry_price := by
  unfold execute_order_task
  by_cases hg : task.gen ≠ g
  · rw [if_pos hg]
    obtain ⟨h1, h2, h3, h4⟩ := stale_revert_frame task stock
    rw [h1, h2, h3, h4]
    exact ⟨⟨le_refl _, hstop⟩, rfl, hqty, havg⟩
  · rw [if_neg hg]
    by_cases hp : task.pending ≠ "" ∧ stock.pending_order ≠ task.pending
    · rw [if_pos hp]
      exact ⟨⟨le_refl _, hstop⟩, rfl, hqty, havg⟩
    · rw [if_neg hp]
      simp only [hk, String.reduceEq, reduceIte]
      by_cases hp2 : stock.pending_order ≠ task.pending
      · rw [if_pos hp2]
        exact ⟨⟨le_refl _, hstop⟩, rfl, hqty, havg⟩
      · rw [if_neg hp2]
        unfold exec_add_on
        match br with
        | .failure msg => exact ⟨⟨le_refl _, hstop⟩, rfl, hqty, havg⟩
        | .success oid ep eq =>
            have hfill := hbr oid ep eq rfl
            have hfp : 0 ≤ pyOrQ ep task.price := by
              unfold pyOrQ
              split_ifs <;> first | exact htp | exact hfill.1
            have hfq : 0 ≤ pyOrZ eq task.qty := by
              unfold pyOrZ
              split_ifs <;> first | exact htq | exact hfill.2
            have hq' : 0 < stock.quantity + pyOrZ eq task.qty := by omega
            have hden : (0 : ℚ) <
                ((stock.quantity + pyOrZ eq task.qty : Int) : ℚ) := by
              exact_mod_cast hq'
            have hnum : (0 : ℚ) <
                stock.avg_entry_price * (stock.quantity : ℚ) +
                  pyOrQ ep task.price * ((pyOrZ eq task.qty : Int) : ℚ) := by
              have h1 : (0 : ℚ) <
                  stock.avg_entry_price * (stock.quantity : ℚ) :=
                mul_pos havg (by exact_mod_cast hqty)
              have h2 : (0 : ℚ) ≤
                  pyOrQ ep task.price * ((pyOrZ eq task.qty : Int) : ℚ) :=
                mul_nonneg hfp (by exact_mod_cast hfq)
              linarith
            have hna : (0 : ℚ) <
                (stock.avg_entry_price * (stock.quantity : ℚ) +
                    pyOrQ ep task.price *
                      ((pyOrZ eq task.qty : Int) : ℚ)) /
                  ((stock.quantity + pyOrZ eq task.qty : Int) : ℚ) :=
              div_pos hnum hden
            dsimp only
            rw [if_pos (show stock.quantity > 0 ∧
              stock.avg_entry_price > 0 from ⟨hqty, havg⟩)]
            rw [if_neg (by rw [hm]; decide :
              ¬task.mode = ("LONG" : String))]
            have hsl : 0 < (1 + init_sl_mult s) := by linarith
            split_ifs with h1 h2 h3 <;>
              first
                | exact ⟨⟨by
                      rcases (‹_ ∨ _› : stock.stop_loss = 0 ∨
                        _ < stock.stop_loss) with h | h
                      · exact absurd h (ne_of_gt hstop)
                      · exact le_of_lt h,
                    mul_pos hna hsl⟩, rfl, hq', hna⟩
                | exact ⟨⟨le_refl _, hstop⟩, rfl, hq', hna⟩

/-- Run a list of engine events in order. -/
def run_events (s : StrategySettings) : List EngEvent → EngState → EngState
  | [], st => st
  | e :: es, st => run_events s es (engine_step s e st)

/-- Events allowed while a ladder holds direction `m` with no close or
flip executed in between: ticks, and worker executions whose dequeued
task (if any) is an ADD_ON for `m`. -/
def add_on_exec_event (m : String) (st : EngState) (e : EngEvent) : Prop :=
  match e with
  | .tick _ _ _ _ => True
  | .execNext _ =>
      match st.queue with
      | [] => True
      | t :: _ => t.kind = "ADD_ON" ∧ t.mode = m
  | _ => False

/-- Fills and task parameters are non-negative (prices and quantities the
producers and broker report are never negative). -/
def nonneg_fill_event (st : EngState) (e : EngEvent) : Prop :=
  match e with
  | .execNext br =>
      (match st.queue with
       | [] => True
       | t :: _ => 0 ≤ t.qty ∧ 0 ≤ t.price) ∧
      (match br with
       | .failure _ => True
       | .success _ ep eq => 0 ≤ ep ∧ 0 ≤ eq)
  | _ => True

/-- Every event of the list satisfies `P` at the state it fires in. -/
def events_ok (P : EngState → EngEvent → Prop) (s : StrategySettings) :
    List EngEvent → EngState → Prop
  | [], _ => True
  | e :: es, st => P st e ∧ events_ok P s es (engine_step s e st)

/-- The open-SHORT invariant: set stop, open quantity, positive average. -/
def short_inv (st : EngState) : Prop :=
  st.stock.mode = "SHORT" ∧ 0 < st.stock.stop_loss ∧
  0 < st.stock.quantity ∧ 0 < st.stock.avg_entry_price

theorem stop_monotone_long_chain (s : StrategySettings)
    (es : List EngEvent) :
    ∀ st : EngState, st.stock.mode = "LONG" →
      events_ok (add_on_exec_event "LONG") s es st →
      st.stock.stop_loss ≤ (run_events s es st).stock.stop_loss ∧
      (run_events s es st).stock.mode = "LONG" := by
  induction es with
  | nil => exact fun st hm _ => ⟨le_refl _, hm⟩
  | cons e es ih =>
      intro st hm hok
      obtain ⟨hP, hrest⟩ := hok
      have hstep : st.stock.stop_loss ≤
          (engine_step s e st).stock.stop_loss ∧
          (engine_step s e st).stock.mode = "LONG" := by
        match e with
        | .tick other halted ltp volume =>
            obtain ⟨h1, h2, _, _⟩ :=
              tick_stop_long s other halted ltp volume st hm
            exact ⟨h1, h2⟩
        | .execNext br =>
            show st.stock.stop_loss ≤ (exec_next s br st).stock.stop_loss ∧
              (exec_next s br st).stock.mode = "LONG"
            unfold exec_next
            match hq : st.queue with
            | [] => exact ⟨le_refl _, hm⟩
            | t :: rest =>
                have hP' : t.kind = "ADD_ON" ∧ t.mode = "LONG" := by
                  have := hP
                  unfold add_on_exec_event at this
                  rw [hq] at this
                  exact this
                obtain ⟨h1, h2⟩ := execute_add_on_task_stop_long s st.gen
                  t br st.stock hP'.1 hP'.2
                exact ⟨h1, h2.trans hm⟩
        | .selectStartLong other capOk => exact absurd hP (by simp [add_on_exec_event])
        | .selectStartShort other capOk => exact absurd hP (by simp [add_on_exec_event])
        | .squareOff other r fs => exact absurd hP (by simp [add_on_exec_event])
        | .stopEngine r => exact absurd hP (by simp [add_on_exec_event])
        | .startEngine a b => exact absurd hP (by simp [add_on_exec_event])
      have := ih (engine_step s e st) hstep.2 hrest
      exact ⟨hstep.1.trans this.1, this.2⟩

theorem stop_monotone_short_chain (s : StrategySettings)
    (htsl : 0 ≤ tsl_mult s) (hisl : 0 ≤ init_sl_mult s)
    (es : List EngEvent) :
    ∀ st : EngState, short_inv st →
      events_ok (fun st' e =>
        add_on_exec_event "SHORT" st' e ∧ nonneg_fill_event st' e) s es st →
      (run_events s es st).stock.stop_loss ≤ st.stock.stop_loss ∧
      short_inv (run_events s es st) := by
  induction es with
  | nil => exact fun st hi _ => ⟨le_refl _, hi⟩
  | cons e es ih =>
      intro st hi hok
      obtain ⟨⟨hP, hN⟩, hrest⟩ := hok
      obtain ⟨hm, hstop, hqty, havg⟩ := hi
      have hstep : (engine_step s e st).stock.stop_loss ≤
          st.stock.stop_loss ∧ short_inv (engine_step s e st) := by
        match e with
        | .tick other halted ltp volume =>
            obtain ⟨⟨h1, h2⟩, h3, h4, h5⟩ :=
              tick_stop_short s other halted ltp volume st htsl hm hstop
            exact ⟨h1, h3, h2, h4 ▸ hqty, h5 ▸ havg⟩
        | .execNext br =>
            show (exec_next s br st).stock.stop_loss ≤ st.stock.stop_loss ∧
              short_inv (exec_next s br st)
            unfold exec_next short_inv
            match hq : st.queue with
            | [] => exact ⟨le_refl _, hm, hstop, hqty, havg⟩
            | t :: rest =>
                have hP' : t.kind = "ADD_ON" ∧ t.mode = "SHORT" := by
                  have := hP
                  unfold add_on_exec_event at this
                  rw [hq] at this
                  exact this
                have hN' : (0 ≤ t.qty ∧ 0 ≤ t.price) ∧
                    ∀ oid ep eq, br = .success oid ep eq →
                      0 ≤ ep ∧ 0 ≤ eq := by
                  have := hN
                  unfold nonneg_fill_event at this
                  rw [hq] at this
                  refine ⟨this.1, ?_⟩
                  intro oid ep eq hbr
                  have h2 := this.2
                  rw [hbr] at h2
                  exact h2
                obtain ⟨⟨h1, h2⟩, h3, h4, h5⟩ :=
                  execute_add_on_task_stop_short s st.gen t br st.stock
                    hP'.1 hP'.2 hisl hstop hqty havg hN'.1.1 hN'.1.2 hN'.2
                exact ⟨h1, h3.trans hm, h2, h4, h5⟩
        | .selectStartLong other capOk => exact absurd hP (by simp [add_on_exec_event])
        | .selectStartShort other capOk => exact absurd hP (by simp [add_on_exec_event])
        | .squareOff other r fs => exact absurd hP (by simp [add_on_exec_event])
        | .stopEngine r => exact absurd hP (by simp [add_on_exec_event])
        | .startEngine a b => exact absurd hP (by simp [add_on_exec_event])
      have := ih (engine_step s e st) hstep.2 hrest
      exact ⟨this.1.trans hstep.1, this.2⟩


/-- C7: across any sequence of processed ticks and ADD_ON executions on an
instrument holding an open LONG position (no close or flip in between),
`stop_loss` is non-decreasing; on an open SHORT position with its stop
set, `stop_loss` is non-increasing (given the configured non-negative
trailing/initial stop percentages and non-negative prices/quantities). -/
theorem stop_monotonicity (s : StrategySettings) (es : List EngEvent)
    (st : EngState) (htsl : 0 ≤ tsl_mult s) (hisl : 0 ≤ init_sl_mult s) :
    (st.stock.mode = "LONG" →
      events_ok (add_on_exec_event "LONG") s es st →
      st.stock.stop_loss ≤ (run_events s es st).stock.stop_loss ∧
      (run_events s es st).stock.mode = "LONG") ∧
    (short_inv st →
      events_ok (fun st' e => add_on_exec_event "SHORT" st' e ∧
        nonneg_fill_event st' e) s es st →
      (run_events s es st).stock.stop_loss ≤ st.stock.stop_loss ∧
      short_inv (run_events s es st)) :=
  ⟨fun hm hok => stop_monotone_long_chain s es st hm hok,
   fun hi hok => stop_monotone_short_chain s htsl hisl es st hi hok⟩

/-- A freshly started LONG ladder state for the C7 witness. -/
def wLongState : EngState :=
  { running := true, gen := 1,
    stock := (execute_order_task {} 1 wStartTask
      (.success none 100 100) wStartStock).1,
    queue := [] }

/-- Witness for `stop_monotonicity`: one processed tick at 104 on the
LONG ladder started at 100 does not lower the stop. -/
theorem stop_monotonicity_witness :
    wLongState.stock.stop_loss ≤
      (run_events {} [.tick 0 false 104 0] wLongState).stock.stop_loss ∧
    (run_events {} [.tick 0 false 104 0] wLongState).stock.mode =
      "LONG" := by
  have h := stop_monotonicity {} [.tick 0 false 104 0] wLongState
    (by norm_num [tsl_mult]) (by norm_num [init_sl_mult])
  exact h.1 (by decide) ⟨trivial, trivial⟩

/-- The LONG ladder state right after a start fill at 100 (100 shares):
stop 98, target 105, next add-on 100.5 under the default settings. -/
def cexStock0 : StockStatus :=
  { fresh_stock "X" 95 with
    mode := "LONG"
    status := "ACTIVE"
    ladder_level := 1
    entry_price := 100
    avg_entry_price := 100
    quantity := 100
    high_watermark := 100
    stop_loss := 98
    target := 105
    next_add_on := 201/2 }

/-- `cexStock0` after the display refresh of a tick at 104. -/
def cexStock1 : StockStatus :=
  { cexStock0 with
    ltp := 104
    change_pct := 180/19
    day_open := 104
    open_gap_pct := 180/19
    high_watermark := 104
    pnl := 400 }

theorem cex_start_eval :
    (execute_order_task {} 1 wStartTask
      (.success none 100 100) wStartStock).1 = cexStock0 := by
  norm_num [execute_order_task, exec_start_long, wStartTask, wStartStock,
    fresh_stock, pyOrQ, pyOrZ, init_sl_mult, target_mult, add_on_mult,
    appendOrderId, cexStock0]

theorem cex_refresh_eval : tick_refresh 104 0 cexStock0 = cexStock1 := by
  have h1 : tick_update_price 104 0 cexStock0 = { cexStock0 with ltp := 104, last_volume := 0 } := by
    norm_num [tick_update_price]
  have h2 : tick_update_turnover 104 0 { cexStock0 with ltp := 104, last_volume := 0 } = { cexStock0 with ltp := 104, last_volume := 0 } := by
    norm_num [tick_update_turnover]
  have h3 : tick_update_day_open 104 { cexStock0 with ltp := 104, last_volume := 0 } = { cexStock0 with ltp := 104, last_volume := 0, day_open := 104, open_gap_pct := 180/19 } := by
    norm_num [tick_update_day_open, cexStock0, fresh_stock]
  have h4 : tick_update_change_pct 104 { cexStock0 with ltp := 104, last_volume := 0, day_open := 104, open_gap_pct := 180/19 } = { cexStock0 with ltp := 104, last_volume := 0, day_open := 104, open_gap_pct := 180/19, change_pct := 180/19 } := by
    norm_num [tick_update_change_pct, cexStock0, fresh_stock]
  have h5 : tick_update_watermark 104 { cexStock0 with ltp := 104, last_volume := 0, day_open := 104, open_gap_pct := 180/19, change_pct := 180/19 } = { cexStock0 with ltp := 104, last_volume := 0, day_open := 104, open_gap_pct := 180/19, change_pct := 180/19, high_watermark := 104 } := by
    norm_num [tick_update_watermark, cexStock0, fresh_stock]
    all_goals decide
  have h6 : tick_update_pnl 104 { cexStock0 with ltp := 104, last_volume := 0, day_open := 104, open_gap_pct := 180/19, change_pct := 180/19, high_watermark := 104 } = { cexStock0 with ltp := 104, last_volume := 0, day_open := 104, open_gap_pct := 180/19, change_pct := 180/19, high_watermark := 104, pnl := 400 } := by
    norm_num [tick_update_pnl, cexStock0, fresh_stock]
    all_goals decide
  show tick_update_pnl 104 (tick_update_watermark 104 (tick_update_change_pct 104 (tick_update_day_open 104 (tick_update_turnover 104 0 (tick_update_price 104 0 cexStock0))))) = cexStock1
  rw [h1, h2, h3, h4, h5, h6]
  norm_num [cexStock0, cexStock1, fresh_stock]

theorem cex_tick_eval :
    process_tick {} 1 0 true false 104 0 ⟨cexStock0, []⟩ =
      ⟨{ cexStock1 with
          stop_loss := 2548/25
          pending_order := "ADD_ON_LONG"
          last_order_error := "" },
        [{ kind := "ADD_ON", symbol := "X", pending := "ADD_ON_LONG",
           mode := "LONG", qty := 10, price := 104, gen := 1 }]⟩ := by
  unfold process_tick
  rw [if_neg (by decide), if_neg (by decide)]
  simp only [cex_refresh_eval]
  rw [if_neg (by decide), if_neg (by decide : ¬(cexStock1.pending_order ≠ ""))]
  rw [if_pos (by decide : cexStock1.mode = "LONG")]
  unfold process_long_position
  rw [if_neg (by norm_num [cexStock1, cexStock0, fresh_stock]),
    if_neg (by norm_num [cexStock1, cexStock0, fresh_stock]),
    if_pos (show cexStock1.ladder_level < ({} : StrategySettings).no_of_add_ons
        ∧ cexStock1.ltp ≥ cexStock1.next_add_on by
      constructor
      · decide
      · norm_num [cexStock1, cexStock0, fresh_stock])]
  unfold execute_add_on
  rw [if_neg (by decide : ¬(cexStock1.pending_order ≠ ""))]
  have hqty : qty_from_capital ({} : StrategySettings).trade_capital
      cexStock1.entry_price = 10 := by
    norm_num [qty_from_capital, cexStock1, cexStock0, fresh_stock]
  rw [hqty]
  unfold enqueue_order
  rw [if_pos (by decide)]
  dsimp only
  unfold tick_pnl_limits
  norm_num [mark_pending, cexStock1, cexStock0, fresh_stock, tsl_mult,
    close_position, String.reduceEq, reduceIte]
  all_goals decide

/-- C8 counterexample: after a LONG start at 100 (stop 98 < avg 100 <
target 105) a single processed tick at 104 trails the stop up to 101.92,
so the claimed reachable-state invariant `stop_loss < avg_entry_price`
fails while the position is still LONG. -/
theorem stop_target_ordering_cex :
    (run_events {} [.tick 0 false 104 0]
      { running := true, gen := 1, stock := cexStock0,
        queue := [] }).stock.mode = "LONG" ∧
    (run_events {} [.tick 0 false 104 0]
      { running := true, gen := 1, stock := cexStock0,
        queue := [] }).stock.avg_entry_price <
      (run_events {} [.tick 0 false 104 0]
        { running := true, gen := 1, stock := cexStock0,
          queue := [] }).stock.stop_loss := by
  have hrun : run_events {} [.tick 0 false 104 0]
      { running := true, gen := 1, stock := cexStock0, queue := [] } =
      { running := true, gen := 1,
        stock := { cexStock1 with stop_loss := 2548/25, pending_order := "ADD_ON_LONG", last_order_error := "" },
        queue := [{ kind := "ADD_ON", symbol := "X", pending := "ADD_ON_LONG", mode := "LONG", qty := 10, price := 104, gen := 1 }] } := by
    simp only [run_events, engine_step]
    rw [cex_tick_eval]
  rw [hrun]
  refine ⟨rfl, ?_⟩
  show (100 : ℚ) < 2548/25
  norm_num

/-- C8 (amended ordering): at ladder initialization the claimed ordering
does hold.  For any successfully filled `START_LONG` with positive fill
price and positive stop/target percentages the resulting position has
`stop_loss < avg_entry_price < target`, and the mirrored `START_SHORT`
fill has `target < avg_entry_price < stop_loss`.  The claim's stronger
"every reachable state" form is refuted by `stop_target_ordering_cex`:
the trailing-stop update deliberately raises a LONG stop above the
average entry price. -/
theorem stop_target_ordering (s : StrategySettings) (task : OrderTask)
    (oid : Option String) (p : ℚ) (q : Int) (stock : StockStatus)
    (hp : 0 < pyOrQ p task.price)
    (hsl : 0 < s.initial_stop_loss_pct)
    (htg : 0 < s.target_percentage) :
    ((exec_start_long s task (.success oid p q) stock).stop_loss <
        (exec_start_long s task (.success oid p q) stock).avg_entry_price ∧
      (exec_start_long s task (.success oid p q) stock).avg_entry_price <
        (exec_start_long s task (.success oid p q) stock).target) ∧
    ((exec_start_short s task (.success oid p q) stock).target <
        (exec_start_short s task (.success oid p q) stock).avg_entry_price ∧
      (exec_start_short s task (.success oid p q) stock).avg_entry_price <
        (exec_start_short s task (.success oid p q) stock).stop_loss) := by
  unfold exec_start_long exec_start_short
  dsimp only [init_sl_mult, target_mult]
  refine ⟨⟨?_, ?_⟩, ?_, ?_⟩
  · nlinarith [mul_pos hp hsl]
  · nlinarith [mul_pos hp htg]
  · nlinarith [mul_pos hp htg]
  · nlinarith [mul_pos hp hsl]

def wC8Task : OrderTask := { kind := "START_LONG", price := 100 }

/-- Concrete instance of the initialization ordering: a 100-priced fill
under default settings yields LONG stop 98 < avg 100 < target 105 and
SHORT target 95 < avg 100 < stop 102. -/
theorem stop_target_ordering_witness :
    ((0 : ℚ) < pyOrQ 100 wC8Task.price ∧
      (0 : ℚ) < ({} : StrategySettings).initial_stop_loss_pct ∧
      (0 : ℚ) < ({} : StrategySettings).target_percentage) ∧
    (((exec_start_long {} wC8Task (.success none 100 100)
          (fresh_stock "X" 95)).stop_loss <
        (exec_start_long {} wC8Task (.success none 100 100)
          (fresh_stock "X" 95)).avg_entry_price ∧
      (exec_start_long {} wC8Task (.success none 100 100)
          (fresh_stock "X" 95)).avg_entry_price <
        (exec_start_long {} wC8Task (.success none 100 100)
          (fresh_stock "X" 95)).target) ∧
    ((exec_start_short {} wC8Task (.success none 100 100)
          (fresh_stock "X" 95)).target <
        (exec_start_short {} wC8Task (.success none 100 100)
          (fresh_stock "X" 95)).avg_entry_price ∧
      (exec_start_short {} wC8Task (.success none 100 100)
          (fresh_stock "X" 95)).avg_entry_price <
        (exec_start_short {} wC8Task (.success none 100 100)
          (fresh_stock "X" 95)).stop_loss)) :=
  ⟨⟨by norm_num [pyOrQ, wC8Task], by norm_num, by norm_num⟩,
    stop_target_ordering {} wC8Task none 100 100 (fresh_stock "X" 95)
      (by norm_num [pyOrQ, wC8Task]) (by norm_num) (by norm_num)⟩

end Ladder
